import Mathlib

/-!
# The IGC metadata framework (IGC/common/MDFrameWork.h)

The typed metadata records of the compiler (ModuleMetaData, FunctionMetaData
and the records nested in them), their default construction, and the codec
that carries them on the IR module as a generic node tree.

Conventions of the embedding: `unsigned`, `uint32_t`, `uint64_t` and
`unsigned char` members are natural numbers, `int` and `char` members are
integers, a `float` member is the raw bit pattern of its value, and a pointer
(llvm::Function*, llvm::GlobalVariable*, llvm::StructType*) is the
natural-number handle of the entity it refers to. A member's default value in
a structure below is the default member initialiser of the header; a member
declared without one, of a scalar type, has no default here either.
-/

namespace IGC

/-! ## Constants, enumerations and containers -/

/-- Modelled from the spec: the declarations MDFrameWork.h takes from headers
that are not at hand, kept as parameters: the rounding-mode constants of
Compiler/CodeGenPublicEnums.h and the number of enumerators that precede
NumberOfCallableShaderTypes in RaytracingShaderTypes.h. -/
structure Includes where
  ROUND_TO_NEAREST_EVEN : Nat
  ROUND_TO_ZERO : Nat
  numCallableShaderTypes : Nat

def INPUT_RESOURCE_SLOT_COUNT : Nat := 128
def NUM_SHADER_RESOURCE_VIEW_SIZE : Nat := (INPUT_RESOURCE_SLOT_COUNT + 1) / 64
def g_c_maxNumberOfBufferPushed : Nat := 4
def INVALID_CONSTANT_BUFFER_INVALID_ADDR : Nat := 0xFFFFFFFF
def UINT_MAX : Nat := 4294967295
def DefaultIndirectIdx : Nat := 0

inductive FunctionTypeMD where
  | KernelFunction
  | CallableShader
  | UserFunction
  | NumberOfFunctionType
  deriving DecidableEq, Repr

/-- The unscoped enumeration StackEntryType. Its five enumerators have the
values 0 to 4; its underlying type is not fixed, so an object of the type
holds any value of the smallest bit-field that holds them all, 0 to 7. -/
structure StackEntryType where
  val : Fin 8
  deriving DecidableEq, Repr

def StackEntryType.ENTRY_RETURN_IP : StackEntryType := ⟨0⟩

def StackEntryType.ENTRY_ARGUMENT : StackEntryType := ⟨1⟩

def StackEntryType.ENTRY_ALLOCA : StackEntryType := ⟨2⟩

def StackEntryType.ENTRY_SPILL : StackEntryType := ⟨3⟩

def StackEntryType.ENTRY_UNKNOWN : StackEntryType := ⟨4⟩

/-- Whether the value is one of the five enumerators. -/
def StackEntryType.isEnumerator (e : StackEntryType) : Bool :=
  [StackEntryType.ENTRY_RETURN_IP, StackEntryType.ENTRY_ARGUMENT, StackEntryType.ENTRY_ALLOCA,
    StackEntryType.ENTRY_SPILL, StackEntryType.ENTRY_UNKNOWN].contains e

/-- The scoped enumeration ThreadIDLayout (`enum class`, of underlying type
int): three enumerators, of the values 0 to 2; an object of the type holds
any int. -/
structure ThreadIDLayout where
  val : Int
  deriving DecidableEq, Repr

def ThreadIDLayout.X : ThreadIDLayout := ⟨0⟩

def ThreadIDLayout.TileY : ThreadIDLayout := ⟨1⟩

def ThreadIDLayout.QuadTile : ThreadIDLayout := ⟨2⟩

/-- Whether the value is one of the three enumerators. -/
def ThreadIDLayout.isEnumerator (e : ThreadIDLayout) : Bool :=
  [ThreadIDLayout.X, ThreadIDLayout.TileY, ThreadIDLayout.QuadTile].contains e

/-- Modelled from the spec: the enumeration CallableShaderTypeMD, declared in
RaytracingShaderTypes.h, which is not at hand. The spec fixes its
shape only: the defined raytracing shader types, followed by the reserved
terminal enumerator NumberOfCallableShaderTypes ("no defined raytracing
shader type"). -/
inductive CallableShaderTypeMD (inc : Includes) where
  | shaderType (ordinal : Fin inc.numCallableShaderTypes)
  | NumberOfCallableShaderTypes
  deriving DecidableEq, Repr

/-- A std::array<T, n>: exactly n elements. -/
structure FixedArray (α : Type) (n : Nat) where
  elems : List α
  size_eq : elems.length = n

def FixedArray.fill {α : Type} (n : Nat) (a : α) : FixedArray α n :=
  ⟨List.replicate n a, List.length_replicate n a⟩

/-- Strict ordering of the keys of a std::map. -/
class KeyOrder (K : Type) where
  lt : K → K → Bool
  trans : ∀ a b c, lt a b = true → lt b c = true → lt a c = true
  asymm : ∀ a b, lt a b = true → lt b a = false

instance : KeyOrder Nat where
  lt a b := decide (a < b)
  trans a b c h1 h2 := by simp at *; omega
  asymm a b h := by simp at *; omega

/-- A std::map<K, V>: entries in strictly increasing key order. -/
structure StdMap (K V : Type) [KeyOrder K] where
  entries : List (K × V)
  sorted : entries.Pairwise (fun a b => KeyOrder.lt a.1 b.1 = true)

def StdMap.empty {K V : Type} [KeyOrder K] : StdMap K V := ⟨[], List.Pairwise.nil⟩

/-- Sorted insertion of std::map::insert: an entry whose key is equivalent to
the new key is kept, the new pair is then not inserted. -/
def StdMap.insertEntry {K V : Type} [KeyOrder K] (k : K) (v : V) : List (K × V) → List (K × V)
  | [] => [(k, v)]
  | e :: rest =>
    if KeyOrder.lt k e.1 then (k, v) :: e :: rest
    else if KeyOrder.lt e.1 k then e :: StdMap.insertEntry k v rest
    else e :: rest

def StdMap.insert {K V : Type} [KeyOrder K] (m : StdMap K V) (k : K) (v : V) : StdMap K V :=
  ⟨StdMap.insertEntry k v m.entries, by
    have mem : ∀ (l : List (K × V)) (x : K × V),
        x ∈ StdMap.insertEntry k v l → x = (k, v) ∨ x ∈ l := by
      intro l
      induction l with
      | nil => intro x hx; simpa [StdMap.insertEntry] using hx
      | cons e rest ih =>
        intro x hx
        unfold StdMap.insertEntry at hx
        split at hx
        · simp only [List.mem_cons] at hx ⊢; tauto
        · split at hx
          · simp only [List.mem_cons] at hx ⊢
            rcases hx with hx | hx
            · exact Or.inr (Or.inl hx)
            · rcases ih x hx with h | h
              · exact Or.inl h
              · exact Or.inr (Or.inr h)
          · exact Or.inr hx
    have keep : ∀ l : List (K × V),
        l.Pairwise (fun a b => KeyOrder.lt a.1 b.1 = true) →
        (StdMap.insertEntry k v l).Pairwise (fun a b => KeyOrder.lt a.1 b.1 = true) := by
      intro l
      induction l with
      | nil => intro _; simp [StdMap.insertEntry]
      | cons e rest ih =>
        intro hl
        have hrest := (List.pairwise_cons.mp hl).2
        have hhead := (List.pairwise_cons.mp hl).1
        unfold StdMap.insertEntry
        split
        · rename_i hlt
          refine List.pairwise_cons.mpr ⟨?_, hl⟩
          intro x hx
          rcases List.mem_cons.mp hx with h | h
          · subst h; exact hlt
          · exact KeyOrder.trans _ _ _ hlt (hhead x h)
        · split
          · rename_i hgt
            refine List.pairwise_cons.mpr ⟨?_, ih hrest⟩
            intro x hx
            rcases mem rest x hx with h | h
            · subst h; exact hgt
            · exact hhead x h
          · exact hl
    exact keep _ m.sorted⟩

def StdMap.ofList {K V : Type} [KeyOrder K] (l : List (K × V)) : StdMap K V :=
  l.foldl (fun m e => m.insert e.1 e.2) StdMap.empty

/-- An llvm::MapVector<K, V>: entries in insertion order, one per key. -/
structure MapVector (K V : Type) [DecidableEq K] where
  entries : List (K × V)
  nodup : (entries.map Prod.fst).Nodup

def MapVector.empty {K V : Type} [DecidableEq K] : MapVector K V := ⟨[], List.nodup_nil⟩

def MapVector.insertEntry {K V : Type} [DecidableEq K] (k : K) (v : V) (l : List (K × V)) :
    List (K × V) :=
  if k ∈ l.map Prod.fst then l else l ++ [(k, v)]

def MapVector.insert {K V : Type} [DecidableEq K] (m : MapVector K V) (k : K) (v : V) :
    MapVector K V :=
  ⟨MapVector.insertEntry k v m.entries, by
    unfold MapVector.insertEntry
    split
    · exact m.nodup
    · rename_i h
      rw [List.map_append, List.nodup_append]
      refine ⟨m.nodup, by simp, ?_⟩
      intro a ha hb
      simp at hb
      subst hb
      exact h ha⟩

def MapVector.ofList {K V : Type} [DecidableEq K] (l : List (K × V)) : MapVector K V :=
  l.foldl (fun m e => m.insert e.1 e.2) MapVector.empty

structure InlineResInfo where
  textureID : Nat := 0
  SurfaceType : Nat := 0x7
  WidthOrBufferSize : Nat := 0
  Height : Nat := 0
  Depth : Nat := 0
  SurfaceArray : Nat := 0
  QWidth : Nat := 0
  QHeight : Nat := 0
  MipCount : Nat := 0

structure ArgDependencyInfoMD where
  argDependency : Int := 0

structure ArgAllocMD where
  type : Int := (-1)
  extensionType : Int := (-1)
  indexType : Int := (-1)

structure InlineSamplersMD where
  m_Value : Int := 0
  addressMode : Int := 0
  index : Int := 0
  TCXAddressMode : Int := 0
  TCYAddressMode : Int := 0
  TCZAddressMode : Int := 0
  MagFilterType : Int := 0
  MinFilterType : Int := 0
  MipFilterType : Int := 0
  CompareFunc : Int := 0
  NormalizedCoords : Int := 0
  BorderColorR : Nat := 0
  BorderColorG : Nat := 0
  BorderColorB : Nat := 0
  BorderColorA : Nat := 0

structure ResourceAllocMD where
  uavsNumType : Int := 0
  srvsNumType : Int := 0
  samplersNumType : Int := 0
  argAllocMDList : List ArgAllocMD := []
  inlineSamplersMD : List InlineSamplersMD := []

structure ComputeShaderSecondCompileInputInfoMD where
  runtimeVal_ResWidthHeight : Int := 0
  runtimeVal_LoopCount : Int := 0
  runtimeVal_ConstantBufferSize : Int := 0
  isSecondCompile : Bool := false
  isRowMajor : Int := 0
  numChannelsUsed : Int := 0

structure LocalOffsetMD where
  m_Offset : Int
  m_Var : Nat

structure WorkGroupWalkOrderMD where
  dim0 : Int := 0
  dim1 : Int := 0
  dim2 : Int := 0

structure FuncArgMD where
  bufferLocationIndex : Int := (-1)
  bufferLocationCount : Int := (-1)
  isEmulationArg : Bool := false

structure StackFrameEntry where
  Name : String := ""
  TypeRepr : String := ""
  EntryType : StackEntryType := .ENTRY_UNKNOWN
  Size : Nat := 0
  Offset : Nat := 0

structure StackFrameSpillUnion where
  ContinuationName : String := ""
  Entries : List StackFrameEntry := []

structure RayTracingSWTypes where
  FrameStartTys : List Nat := []
  ArgumentTys : List Nat := []
  FullFrameTys : List Nat := []

structure RayTraceModuleInfo where
  RayQueryAllocSizeInBytes : Nat := 0
  NumContinuations : Nat := UINT_MAX
  RTAsyncStackAddrspace : Nat := UINT_MAX
  RTAsyncStackSurfaceStateOffset : Option Nat := none
  SWHotZoneAddrspace : Nat := UINT_MAX
  SWHotZoneSurfaceStateOffset : Option Nat := none
  SWStackAddrspace : Nat := UINT_MAX
  SWStackSurfaceStateOffset : Option Nat := none
  RTSyncStackAddrspace : Nat := UINT_MAX
  RTSyncStackSurfaceStateOffset : Option Nat := none

structure RayTraceShaderInfo (inc : Includes) where
  callableShaderType : CallableShaderTypeMD inc := .NumberOfCallableShaderTypes
  isContinuation : Bool := false
  hasTraceRayPayload : Bool := false
  hasHitAttributes : Bool := false
  hasCallableData : Bool := false
  ShaderStackSize : Nat := 0
  ShaderHash : Nat := 0
  ShaderName : String := ""
  ParentName : String := ""
  SlotNum : Option Nat := none
  NOSSize : Nat := 0
  Entries : List StackFrameEntry := []
  SpillUnions : List StackFrameSpillUnion := []
  CustomHitAttrSizeInBytes : Nat := 0
  Types : RayTracingSWTypes := {}
  Aliases : List String := []

structure ConstantAddress where
  bufId : Nat := 0
  eltId : Nat := 0
  size : Nat := 0
  deriving DecidableEq

/-- Modelled from the spec: `operator <` on ConstantAddress, declared in
MDFrameWork.h; its definition is not at hand. The spec orders the
push-constant address table "by buffer id, then element id"; the size takes no
part in the comparison. -/
def ConstantAddress.lt (a b : ConstantAddress) : Bool :=
  decide (a.bufId < b.bufId) || (decide (a.bufId = b.bufId) && decide (a.eltId < b.eltId))

instance : KeyOrder ConstantAddress where
  lt := ConstantAddress.lt
  trans a b c h1 h2 := by
    simp only [ConstantAddress.lt, Bool.or_eq_true, Bool.and_eq_true, decide_eq_true_eq] at *
    omega
  asymm a b h := by
    simp only [ConstantAddress.lt, Bool.or_eq_true, Bool.and_eq_true, decide_eq_true_eq,
      Bool.or_eq_false_iff, Bool.and_eq_false_iff, decide_eq_false_iff_not] at *
    omega

structure FunctionMetaData (inc : Includes) where
  localOffsets : List LocalOffsetMD := []
  workGroupWalkOrder : WorkGroupWalkOrderMD := {}
  funcArgs : List FuncArgMD := []
  functionType : FunctionTypeMD := .KernelFunction
  rtInfo : RayTraceShaderInfo inc := {}
  resAllocMD : ResourceAllocMD := {}
  maxByteOffsets : List Nat := []
  IsInitializer : Bool := false
  IsFinalizer : Bool := false
  CompiledSubGroupsNumber : Nat := 0
  hasInlineVmeSamplers : Bool := false
  localSize : Int := 0
  localIDPresent : Bool := false
  groupIDPresent : Bool := false
  privateMemoryPerWI : Int := 0
  globalIDPresent : Bool := false
  hasSyncRTCalls : Bool := false
  hasNonKernelArgLoad : Bool := false
  hasNonKernelArgStore : Bool := false
  hasNonKernelArgAtomic : Bool := false
  UserAnnotations : List String := []
  m_OpenCLArgAddressSpaces : List Int := []
  m_OpenCLArgAccessQualifiers : List String := []
  m_OpenCLArgTypes : List String := []
  m_OpenCLArgBaseTypes : List String := []
  m_OpenCLArgTypeQualifiers : List String := []
  m_OpenCLArgNames : List String := []

structure CompOptions (inc : Includes) where
  DenormsAreZero : Bool := false
  CorrectlyRoundedDivSqrt : Bool := false
  OptDisable : Bool := false
  MadEnable : Bool := false
  NoSignedZeros : Bool := false
  NoNaNs : Bool := false
  FloatRoundingMode : Nat := inc.ROUND_TO_NEAREST_EVEN
  FloatCvtIntRoundingMode : Nat := inc.ROUND_TO_ZERO
  VISAPreSchedRPThreshold : Nat := 0
  SetLoopUnrollThreshold : Nat := 0
  UnsafeMathOptimizations : Bool := false
  FiniteMathOnly : Bool := false
  FastRelaxedMath : Bool := false
  DashGSpecified : Bool := false
  FastCompilation : Bool := false
  UseScratchSpacePrivateMemory : Bool := true
  RelaxedBuiltins : Bool := false
  SubgroupIndependentForwardProgressRequired : Bool := true
  GreaterThan2GBBufferRequired : Bool := true
  GreaterThan4GBBufferRequired : Bool := true
  DisableA64WA : Bool := false
  ForceEnableA64WA : Bool := false
  PushConstantsEnable : Bool := true
  HasPositivePointerOffset : Bool := false
  HasBufferOffsetArg : Bool := false
  BufferOffsetArgOptional : Bool := true
  HasSubDWAlignedPtrArg : Bool := false
  replaceGlobalOffsetsByZero : Bool := false
  forcePixelShaderSIMDMode : Nat := 0
  pixelShaderDoNotAbortOnSpill : Bool := false
  UniformWGS : Bool := false
  disableVertexComponentPacking : Bool := false
  disablePartialVertexComponentPacking : Bool := false
  PreferBindlessImages : Bool := false
  UseBindlessMode : Bool := false
  UseLegacyBindlessMode : Bool := true
  disableMathRefactoring : Bool := false
  atomicBranch : Bool := false
  ForceMinSimdSizeForFastestCS : Bool := false
  EnableFastestLinearScan : Bool := false
  UseStatelessforPrivateMemory : Bool := false
  EnableTakeGlobalAddress : Bool := false
  IsLibraryCompilation : Bool := false
  FastVISACompile : Bool := false
  MatchSinCosPi : Bool := false
  CaptureCompilerStats : Bool := false
  EnableZEBinary : Bool := false
  ExcludeIRFromZEBinary : Bool := false
  allowDisableRematforCS : Bool := false
  DisableIncSpillCostAllAddrTaken : Bool := false
  DisableCPSOmaskWA : Bool := false
  WaForceHalfPromotion : Bool := false

structure ComputeShaderInfo where
  maxWorkGroupSize : Nat := 0
  waveSize : Nat := 0
  ComputeShaderSecondCompile : List ComputeShaderSecondCompileInputInfoMD := []
  forcedSIMDSize : Nat := 0
  forceTotalGRFNum : Nat := 0
  VISAPreSchedRPThreshold : Nat := 0
  SetLoopUnrollThreshold : Nat := 0
  forcedVISAPreRAScheduler : Bool := false
  disableLocalIdOrderOptimizations : Bool := false
  disableDispatchAlongY : Bool := false
  neededThreadIdLayout : Option ThreadIDLayout := none
  forceTileYWalk : Bool := false
  atomicBranch : Bool := false
  ResForHfPacking : List (List Nat) := []

structure PixelShaderInfo where
  BlendStateDisabledMask : Nat := 0
  SkipSrc0Alpha : Bool := false
  DualSourceBlendingDisabled : Bool := false
  ForceEnableSimd32 : Bool := false
  outputDepth : Bool := false
  outputStencil : Bool := false
  outputMask : Bool := false
  blendToFillEnabled : Bool := false
  forceEarlyZ : Bool := false
  hasVersionedLoop : Bool := false
  forceSingleSourceRTWAfterDualSourceRTW : Bool := false
  NumSamples : Nat := 0
  blendOptimizationMode : List Int := []
  colorOutputMask : List Int := []

structure MeshShaderInfo where
  PrimitiveTopology : Nat := 3
  MaxNumOfPrimitives : Nat := 0
  MaxNumOfVertices : Nat := 0
  MaxNumOfPerPrimitiveOutputs : Nat := 0
  MaxNumOfPerVertexOutputs : Nat := 0
  WorkGroupSize : Nat := 0
  WorkGroupMemorySizeInBytes : Nat := 0
  IndexFormat : Nat := 6
  SubgroupSize : Nat := 0

structure TaskShaderInfo where
  MaxNumOfOutputs : Nat := 0
  WorkGroupSize : Nat := 0
  WorkGroupMemorySizeInBytes : Nat := 0
  SubgroupSize : Nat := 0

structure SInputDesc where
  index : Nat := 0
  argIndex : Int := 0
  interpolationMode : Int := 0

structure SimplePushInfo where
  cbIdx : Nat := 0
  pushableAddressGrfOffset : Int := (-1)
  pushableOffsetGrfOffset : Int := (-1)
  offset : Nat := 0
  size : Nat := 0
  isStateless : Bool := false
  isBindless : Bool := false
  simplePushLoads : StdMap Nat Int := StdMap.empty

structure StatelessPushInfo where
  addressOffset : Nat := 0
  isStatic : Bool := false

structure DynamicBufferInfo where
  firstIndex : Nat := 0
  numOffsets : Nat := 0

structure PushInfo where
  pushableAddresses : List StatelessPushInfo := []
  bindlessPushInfo : List Nat := []
  dynamicBufferInfo : DynamicBufferInfo := {}
  MaxNumberOfPushedBuffers : Nat := 0
  inlineConstantBufferSlot : Nat := INVALID_CONSTANT_BUFFER_INVALID_ADDR
  inlineConstantBufferOffset : Nat := INVALID_CONSTANT_BUFFER_INVALID_ADDR
  inlineConstantBufferGRFOffset : Nat := INVALID_CONSTANT_BUFFER_INVALID_ADDR
  constants : StdMap ConstantAddress Int := StdMap.empty
  inputs : StdMap Nat SInputDesc := StdMap.empty
  constantReg : StdMap Nat Int := StdMap.empty
  simplePushInfoArr : FixedArray SimplePushInfo g_c_maxNumberOfBufferPushed := (FixedArray.fill g_c_maxNumberOfBufferPushed {})
  simplePushBufferUsed : Nat := 0
  pushAnalysisWIInfos : List ArgDependencyInfoMD := []
  inlineRTGlobalPtrOffset : Nat := 0
  rtSyncSurfPtrOffset : Nat := 0

structure InlineProgramScopeBuffer where
  alignment : Int
  allocSize : Nat
  Buffer : List Nat := []

structure ImmConstantInfo where
  data : List Int := []

structure PointerProgramBinaryInfo where
  PointerBufferIndex : Int
  PointerOffset : Int
  PointeeAddressSpace : Int
  PointeeBufferIndex : Int

structure PointerAddressRelocInfo where
  BufferOffset : Nat
  PointerSize : Nat
  Symbol : String := ""

structure ShaderData where
  numReplicas : Nat := 0

structure SrvMapData where
  resourceRangeID : Nat
  indexIntoRange : Nat
  hfCandidate : Bool := false
  runtimeValue : Nat
  ptrAddressSpace : Nat

structure URBLayoutInfo where
  has64BVertexHeaderInput : Bool := false
  has64BVertexHeaderOutput : Bool := false
  hasVertexHeader : Bool := true

structure SPIRVCapabilities where
  globalVariableDecorationsINTEL : Bool := false

structure ModuleMetaData (inc : Includes) where
  isPrecise : Bool := false
  compOpt : CompOptions inc := {}
  FuncMD : MapVector Nat (FunctionMetaData inc) := MapVector.empty
  pushInfo : PushInfo := {}
  psInfo : PixelShaderInfo := {}
  csInfo : ComputeShaderInfo := {}
  msInfo : MeshShaderInfo := {}
  taskInfo : TaskShaderInfo := {}
  NBarrierCnt : Nat := 0
  rtInfo : RayTraceModuleInfo := {}
  CurUniqueIndirectIdx : Nat := DefaultIndirectIdx
  inlineDynTextures : StdMap Nat (FixedArray Nat 4) := StdMap.empty
  inlineResInfoData : List InlineResInfo := []
  immConstant : ImmConstantInfo := {}
  inlineConstantBuffers : List InlineProgramScopeBuffer := []
  inlineGlobalBuffers : List InlineProgramScopeBuffer := []
  GlobalPointerProgramBinaryInfos : List PointerProgramBinaryInfo := []
  ConstantPointerProgramBinaryInfos : List PointerProgramBinaryInfo := []
  GlobalBufferAddressRelocInfo : List PointerAddressRelocInfo := []
  ConstantBufferAddressRelocInfo : List PointerAddressRelocInfo := []
  forceLscCacheList : StdMap Nat Nat := StdMap.empty
  SrvMap : List SrvMapData := []
  RasterizerOrderedByteAddressBuffer : List Nat := []
  MinNOSPushConstantSize : Nat := 0
  inlineProgramScopeOffsets : MapVector Nat Int := MapVector.empty
  shaderData : ShaderData := {}
  URBInfo : URBLayoutInfo := {}
  UseBindlessImage : Bool := false
  enableRangeReduce : Bool := false
  allowMatchMadOptimizationforVS : Bool := false
  disableMemOptforNegativeOffsetLoads : Bool := false
  statefulResourcesNotAliased : Bool := false
  disableMixMode : Bool := false
  privateMemoryPerWI : Nat := 0
  PrivateMemoryPerFG : StdMap Nat Nat := StdMap.empty
  capabilities : SPIRVCapabilities := {}
  m_ShaderResourceViewMcsMask : FixedArray Nat NUM_SHADER_RESOURCE_VIEW_SIZE := (FixedArray.fill NUM_SHADER_RESOURCE_VIEW_SIZE 0)
  computedDepthMode : Nat := 0
  isHDCFastClearShader : Bool := false

/-! ## Records whose enumeration-typed members hold enumerators -/

/-- The EntryType of the entry is one of the enumerators of StackEntryType. -/
def StackFrameEntry.enumeratorsOnly (a : StackFrameEntry) : Bool :=
  a.EntryType.isEnumerator

def StackFrameSpillUnion.enumeratorsOnly (a : StackFrameSpillUnion) : Bool :=
  a.Entries.all StackFrameEntry.enumeratorsOnly

def RayTraceShaderInfo.enumeratorsOnly {inc : Includes} (a : RayTraceShaderInfo inc) : Bool :=
  a.Entries.all StackFrameEntry.enumeratorsOnly &&
    a.SpillUnions.all StackFrameSpillUnion.enumeratorsOnly

def FunctionMetaData.enumeratorsOnly {inc : Includes} (a : FunctionMetaData inc) : Bool :=
  a.rtInfo.enumeratorsOnly

/-- The neededThreadIdLayout, when present, is one of the enumerators of
ThreadIDLayout. -/
def ComputeShaderInfo.enumeratorsOnly (a : ComputeShaderInfo) : Bool :=
  match a.neededThreadIdLayout with
  | none => true
  | some layout => layout.isEnumerator

/-- Every member whose enumeration type also holds values that are no
enumerators holds an enumerator: the EntryType of every stack-frame entry of
every function, and csInfo.neededThreadIdLayout when present. (A
FunctionTypeMD and a CallableShaderTypeMD hold enumerators only.) -/
def ModuleMetaData.enumeratorsOnly {inc : Includes} (a : ModuleMetaData inc) : Bool :=
  a.FuncMD.entries.all (fun e => e.2.enumeratorsOnly) && a.csInfo.enumeratorsOnly

/-! ## The generic node codec -/

/-- Modelled from the spec: the generic metadata node tree of §4.2, whose node
kinds are scalar (integer, float, string, bool), optional (present or absent
marker), ordered list and named record. The tree type itself (LLVM metadata)
and the code that reads and writes it are not at hand. A
float scalar carries the raw bit pattern of the value, a pointer-valued field
the integer handle of the entity it refers to. -/
inductive Node where
  | int (v : Int)
  | float (bits : Nat)
  | str (s : String)
  | bool (b : Bool)
  | absent
  | present (n : Node)
  | list (items : List Node)
  | record (children : List (String × Node))

/-- Modelled from the spec: the named child of a record node; a missing node, a
node that is no record and a record without that child all give no node
(§4.2: unknown children are ignored, missing ones decode to the default). -/
def Node.child (name : String) : Option Node → Option Node
  | some (.record children) => children.lookup name
  | _ => none

/-- Modelled from the spec: decoding one field (§4.2, §7a): a missing or
malformed node is replaced by the field's default `d`. -/
def decWith {α : Type} (as? : Node → Option α) (d : α) (n : Option Node) : α :=
  (n.bind as?).getD d

/-- Modelled from the spec: a bool member is a bool scalar (§4.2). -/
def encBool (b : Bool) : Node := .bool b

/-- Modelled from the spec: reads a bool scalar; any other node is malformed. -/
def asBool? : Node → Option Bool
  | .bool b => some b
  | _ => none

/-- Modelled from the spec: an unsigned member is an integer scalar (§4.2). -/
def encUInt (v : Nat) : Node := .int (Int.ofNat v)

/-- Modelled from the spec: reads a non-negative integer scalar; any other node is
malformed. -/
def asUInt? : Node → Option Nat
  | .int (Int.ofNat v) => some v
  | _ => none

/-- Modelled from the spec: a pointer-valued member is written as the handle of
its target. -/
def encPtr (handle : Nat) : Node := encUInt handle

/-- Modelled from the spec: a signed member is an integer scalar (§4.2). -/
def encInt (v : Int) : Node := .int v

/-- Modelled from the spec: reads an integer scalar; any other node is malformed. -/
def asInt? : Node → Option Int
  | .int v => some v
  | _ => none

/-- Modelled from the spec: a float member is a float scalar carrying its raw bits. -/
def encFloat (bits : Nat) : Node := .float bits

/-- Modelled from the spec: reads a float scalar; any other node is malformed. -/
def asFloat? : Node → Option Nat
  | .float bits => some bits
  | _ => none

/-- Modelled from the spec: a string member is a string scalar (§4.2). -/
def encString (s : String) : Node := .str s

/-- Modelled from the spec: reads a string scalar; any other node is malformed. -/
def asString? : Node → Option String
  | .str s => some s
  | _ => none

/-- Modelled from the spec: reads a record used as a map key; any record node
is accepted, any other node is malformed. -/
def asRecord? {α : Type} (dec : Option Node → α) : Node → Option α
  | .record children => some (dec (some (.record children)))
  | _ => none

/-- The integer value of each enumerator of FunctionTypeMD. -/
def FunctionTypeMD.toInt : FunctionTypeMD → Int
  | .KernelFunction => 0
  | .CallableShader => 1
  | .UserFunction => 2
  | .NumberOfFunctionType => 3

/-- The enumerator of FunctionTypeMD with the given integer value, when there is
one. -/
def FunctionTypeMD.ofInt? (i : Int) : Option FunctionTypeMD :=
  if i = 0 then some .KernelFunction
  else if i = 1 then some .CallableShader
  else if i = 2 then some .UserFunction
  else if i = 3 then some .NumberOfFunctionType
  else none

/-- The integer value of a StackEntryType. -/
def StackEntryType.toInt (e : StackEntryType) : Int := Int.ofNat e.val.val

/-- The enumerator of StackEntryType with the given integer value, when there is
one. -/
def StackEntryType.ofInt? (i : Int) : Option StackEntryType :=
  if i = 0 then some .ENTRY_RETURN_IP
  else if i = 1 then some .ENTRY_ARGUMENT
  else if i = 2 then some .ENTRY_ALLOCA
  else if i = 3 then some .ENTRY_SPILL
  else if i = 4 then some .ENTRY_UNKNOWN
  else none

/-- The integer value of a ThreadIDLayout. -/
def ThreadIDLayout.toInt (e : ThreadIDLayout) : Int := e.val

/-- The enumerator of ThreadIDLayout with the given integer value, when there is
one. -/
def ThreadIDLayout.ofInt? (i : Int) : Option ThreadIDLayout :=
  if i = 0 then some .X
  else if i = 1 then some .TileY
  else if i = 2 then some .QuadTile
  else none

/-- The integer value of each enumerator of CallableShaderTypeMD: the defined
shader types count from 0, the terminal enumerator follows them. -/
def CallableShaderTypeMD.toInt {inc : Includes} : CallableShaderTypeMD inc → Int
  | .shaderType ordinal => Int.ofNat ordinal.val
  | .NumberOfCallableShaderTypes => Int.ofNat inc.numCallableShaderTypes

/-- The enumerator of CallableShaderTypeMD with the given integer value, when
there is one. -/
def CallableShaderTypeMD.ofInt? (inc : Includes) (i : Int) : Option (CallableShaderTypeMD inc) :=
  match i with
  | Int.ofNat k =>
    if h : k < inc.numCallableShaderTypes then some (.shaderType ⟨k, h⟩)
    else if k = inc.numCallableShaderTypes then some .NumberOfCallableShaderTypes
    else none
  | _ => none

/-- Modelled from the spec: "Enumerations encode as their underlying small
integer" (§4.2). -/
def FunctionTypeMD.enc (e : FunctionTypeMD) : Node := .int e.toInt

/-- Modelled from the spec: reads an enumerator; an integer that is no enumerator
and any other node are malformed (§4.2). -/
def FunctionTypeMD.as? : Node → Option FunctionTypeMD
  | .int i => FunctionTypeMD.ofInt? i
  | _ => none

/-- Modelled from the spec: an enumerator encodes as its integer value (§4.2). -/
def StackEntryType.enc (e : StackEntryType) : Node := .int e.toInt

/-- Modelled from the spec: reads an enumerator; an integer that is no enumerator
and any other node are malformed (§4.2). -/
def StackEntryType.as? : Node → Option StackEntryType
  | .int i => StackEntryType.ofInt? i
  | _ => none

/-- Modelled from the spec: an enumerator encodes as its integer value (§4.2). -/
def ThreadIDLayout.enc (e : ThreadIDLayout) : Node := .int e.toInt

/-- Modelled from the spec: reads an enumerator; an integer that is no enumerator
and any other node are malformed (§4.2). -/
def ThreadIDLayout.as? : Node → Option ThreadIDLayout
  | .int i => ThreadIDLayout.ofInt? i
  | _ => none

/-- Modelled from the spec: an enumerator encodes as its integer value (§4.2). -/
def CallableShaderTypeMD.enc {inc : Includes} (e : CallableShaderTypeMD inc) : Node :=
  .int e.toInt

/-- Modelled from the spec: reads an enumerator; an integer that is no enumerator
and any other node are malformed (§4.2). -/
def CallableShaderTypeMD.as? (inc : Includes) : Node → Option (CallableShaderTypeMD inc)
  | .int i => CallableShaderTypeMD.ofInt? inc i
  | _ => none

/-- Modelled from the spec: an optional field that is absent at encode time
gives an absent-node marker, not an elided node (§4.2). -/
def encOptional {α : Type} (enc : α → Node) : Option α → Node
  | none => .absent
  | some a => .present (enc a)

/-- Modelled from the spec: an absent marker, a missing node and a malformed
payload all decode to the field's default `d` (§4.2). -/
def decOptional {α : Type} (as? : Node → Option α) (d : Option α) : Option Node → Option α
  | some (.present n) =>
    match as? n with
    | some a => some a
    | none => d
  | _ => d

/-- Modelled from the spec: a variable-length collection is an ordered list node
(§4.2). -/
def encList {α : Type} (enc : α → Node) (l : List α) : Node :=
  .list (l.map enc)

/-- Modelled from the spec: reads an ordered list, element by element; a missing
or malformed node gives the empty collection. -/
def decList {α : Type} (dec : Option Node → α) : Option Node → List α
  | some (.list items) => items.map (fun item => dec (some item))
  | _ => []

/-- Modelled from the spec: a fixed-size collection encodes as a fixed-length
list (§4.2). -/
def encArray {α : Type} {n : Nat} (enc : α → Node) (a : FixedArray α n) : Node :=
  .list (a.elems.map enc)

/-- Modelled from the spec: a decoded list of the wrong length is truncated,
or padded with default elements (§4.2); the default element is what the
element decoder gives for a missing node. -/
def decArray {α : Type} (n : Nat) (dec : Option Node → α) : Option Node → FixedArray α n
  | some (.list items) =>
    ⟨(items.take n).map (fun item => dec (some item)) ++
        List.replicate (n - items.length) (dec none), by
      simp only [List.length_append, List.length_map, List.length_take, List.length_replicate]
      omega⟩
  | _ => FixedArray.fill n (dec none)

/-- Modelled from the spec: "Ordered maps encode as a list of key/value pairs
preserving the map's defined ordering" (§4.2). -/
def encPair (k v : Node) : Node := .record [("key", k), ("value", v)]

/-- Modelled from the spec: the entries of a map, in the order of the map, as a
list of key/value pairs (§4.2). -/
def encPairs {K V : Type} (encK : K → Node) (encV : V → Node) (l : List (K × V)) : Node :=
  .list (l.map (fun e => encPair (encK e.1) (encV e.2)))

/-- Modelled from the spec: reads one key/value pair; a pair whose key is
missing or malformed gives no entry. -/
def decPair? {K V : Type} (asK? : Node → Option K) (decV : Option Node → V) (n : Node) :
    Option (K × V) :=
  match (Node.child "key" (some n)).bind asK? with
  | some k => some (k, decV (Node.child "value" (some n)))
  | none => none

/-- Modelled from the spec: reads a list of key/value pairs; a missing or
malformed node gives no pair. -/
def decPairs {K V : Type} (asK? : Node → Option K) (decV : Option Node → V) :
    Option Node → List (K × V)
  | some (.list items) => items.filterMap (decPair? asK? decV)
  | _ => []

/-- Modelled from the spec: a std::map encodes its entries in key order (§4.2). -/
def encStdMap {K V : Type} [KeyOrder K] (encK : K → Node) (encV : V → Node)
    (m : StdMap K V) : Node :=
  encPairs encK encV m.entries

/-- Modelled from the spec: reads a std::map by inserting the decoded pairs one
after the other. -/
def decStdMap {K V : Type} [KeyOrder K] (asK? : Node → Option K) (decV : Option Node → V)
    (n : Option Node) : StdMap K V :=
  StdMap.ofList (decPairs asK? decV n)

/-- Modelled from the spec: a MapVector encodes its entries in insertion order
(§4.2). -/
def encMapVector {K V : Type} [DecidableEq K] (encK : K → Node) (encV : V → Node)
    (m : MapVector K V) : Node :=
  encPairs encK encV m.entries

/-- Modelled from the spec: reads a MapVector by inserting the decoded pairs one
after the other. -/
def decMapVector {K V : Type} [DecidableEq K] (asK? : Node → Option K)
    (decV : Option Node → V) (n : Option Node) : MapVector K V :=
  MapVector.ofList (decPairs asK? decV n)

/-- Modelled from the spec: decoding of `functionMetadata` (§3, §4.4). The
function keys are weak references, re-resolved against the module: a pair
whose function is no longer among the module's `functions` is orphaned and
dropped; the others are entered in the order of the list. -/
def decFuncMD {V : Type} (functions : List Nat) (decV : Option Node → V)
    (n : Option Node) : MapVector Nat V :=
  MapVector.ofList ((decPairs asUInt? decV n).filter (fun e => decide (e.1 ∈ functions)))

/-- Modelled from the spec: a InlineResInfo record as a named-record node, one named child
per member (§4.2). -/
def encInlineResInfo (a : InlineResInfo) : Node :=
  .record [
    ("textureID", encUInt a.textureID),
    ("SurfaceType", encUInt a.SurfaceType),
    ("WidthOrBufferSize", encUInt a.WidthOrBufferSize),
    ("Height", encUInt a.Height),
    ("Depth", encUInt a.Depth),
    ("SurfaceArray", encUInt a.SurfaceArray),
    ("QWidth", encUInt a.QWidth),
    ("QHeight", encUInt a.QHeight),
    ("MipCount", encUInt a.MipCount)]

/-- Modelled from the spec: reads a InlineResInfo record; a missing or malformed child
gives the member its default (§4.2). -/
def decInlineResInfo (n : Option Node) : InlineResInfo where
  textureID := decWith asUInt? 0 (Node.child "textureID" n)
  SurfaceType := decWith asUInt? 0x7 (Node.child "SurfaceType" n)
  WidthOrBufferSize := decWith asUInt? 0 (Node.child "WidthOrBufferSize" n)
  Height := decWith asUInt? 0 (Node.child "Height" n)
  Depth := decWith asUInt? 0 (Node.child "Depth" n)
  SurfaceArray := decWith asUInt? 0 (Node.child "SurfaceArray" n)
  QWidth := decWith asUInt? 0 (Node.child "QWidth" n)
  QHeight := decWith asUInt? 0 (Node.child "QHeight" n)
  MipCount := decWith asUInt? 0 (Node.child "MipCount" n)

/-- Modelled from the spec: a ArgDependencyInfoMD record as a named-record node, one named child
per member (§4.2). -/
def encArgDependencyInfoMD (a : ArgDependencyInfoMD) : Node :=
  .record [
    ("argDependency", encInt a.argDependency)]

/-- Modelled from the spec: reads a ArgDependencyInfoMD record; a missing or malformed child
gives the member its default (§4.2). -/
def decArgDependencyInfoMD (n : Option Node) : ArgDependencyInfoMD where
  argDependency := decWith asInt? 0 (Node.child "argDependency" n)

/-- Modelled from the spec: a ArgAllocMD record as a named-record node, one named child
per member (§4.2). -/
def encArgAllocMD (a : ArgAllocMD) : Node :=
  .record [
    ("type", encInt a.type),
    ("extensionType", encInt a.extensionType),
    ("indexType", encInt a.indexType)]

/-- Modelled from the spec: reads a ArgAllocMD record; a missing or malformed child
gives the member its default (§4.2). -/
def decArgAllocMD (n : Option Node) : ArgAllocMD where
  type := decWith asInt? (-1) (Node.child "type" n)
  extensionType := decWith asInt? (-1) (Node.child "extensionType" n)
  indexType := decWith asInt? (-1) (Node.child "indexType" n)

/-- Modelled from the spec: a InlineSamplersMD record as a named-record node, one named child
per member (§4.2). -/
def encInlineSamplersMD (a : InlineSamplersMD) : Node :=
  .record [
    ("m_Value", encInt a.m_Value),
    ("addressMode", encInt a.addressMode),
    ("index", encInt a.index),
    ("TCXAddressMode", encInt a.TCXAddressMode),
    ("TCYAddressMode", encInt a.TCYAddressMode),
    ("TCZAddressMode", encInt a.TCZAddressMode),
    ("MagFilterType", encInt a.MagFilterType),
    ("MinFilterType", encInt a.MinFilterType),
    ("MipFilterType", encInt a.MipFilterType),
    ("CompareFunc", encInt a.CompareFunc),
    ("NormalizedCoords", encInt a.NormalizedCoords),
    ("BorderColorR", encFloat a.BorderColorR),
    ("BorderColorG", encFloat a.BorderColorG),
    ("BorderColorB", encFloat a.BorderColorB),
    ("BorderColorA", encFloat a.BorderColorA)]

/-- Modelled from the spec: reads a InlineSamplersMD record; a missing or malformed child
gives the member its default (§4.2). -/
def decInlineSamplersMD (n : Option Node) : InlineSamplersMD where
  m_Value := decWith asInt? 0 (Node.child "m_Value" n)
  addressMode := decWith asInt? 0 (Node.child "addressMode" n)
  index := decWith asInt? 0 (Node.child "index" n)
  TCXAddressMode := decWith asInt? 0 (Node.child "TCXAddressMode" n)
  TCYAddressMode := decWith asInt? 0 (Node.child "TCYAddressMode" n)
  TCZAddressMode := decWith asInt? 0 (Node.child "TCZAddressMode" n)
  MagFilterType := decWith asInt? 0 (Node.child "MagFilterType" n)
  MinFilterType := decWith asInt? 0 (Node.child "MinFilterType" n)
  MipFilterType := decWith asInt? 0 (Node.child "MipFilterType" n)
  CompareFunc := decWith asInt? 0 (Node.child "CompareFunc" n)
  NormalizedCoords := decWith asInt? 0 (Node.child "NormalizedCoords" n)
  BorderColorR := decWith asFloat? 0 (Node.child "BorderColorR" n)
  BorderColorG := decWith asFloat? 0 (Node.child "BorderColorG" n)
  BorderColorB := decWith asFloat? 0 (Node.child "BorderColorB" n)
  BorderColorA := decWith asFloat? 0 (Node.child "BorderColorA" n)

/-- Modelled from the spec: a ResourceAllocMD record as a named-record node, one named child
per member (§4.2). -/
def encResourceAllocMD (a : ResourceAllocMD) : Node :=
  .record [
    ("uavsNumType", encInt a.uavsNumType),
    ("srvsNumType", encInt a.srvsNumType),
    ("samplersNumType", encInt a.samplersNumType),
    ("argAllocMDList", encList encArgAllocMD a.argAllocMDList),
    ("inlineSamplersMD", encList encInlineSamplersMD a.inlineSamplersMD)]

/-- Modelled from the spec: reads a ResourceAllocMD record; a missing or malformed child
gives the member its default (§4.2). -/
def decResourceAllocMD (n : Option Node) : ResourceAllocMD where
  uavsNumType := decWith asInt? 0 (Node.child "uavsNumType" n)
  srvsNumType := decWith asInt? 0 (Node.child "srvsNumType" n)
  samplersNumType := decWith asInt? 0 (Node.child "samplersNumType" n)
  argAllocMDList := decList decArgAllocMD (Node.child "argAllocMDList" n)
  inlineSamplersMD := decList decInlineSamplersMD (Node.child "inlineSamplersMD" n)

/-- Modelled from the spec: a ComputeShaderSecondCompileInputInfoMD record as a named-record node, one named child
per member (§4.2). -/
def encComputeShaderSecondCompileInputInfoMD (a : ComputeShaderSecondCompileInputInfoMD) : Node :=
  .record [
    ("runtimeVal_ResWidthHeight", encInt a.runtimeVal_ResWidthHeight),
    ("runtimeVal_LoopCount", encInt a.runtimeVal_LoopCount),
    ("runtimeVal_ConstantBufferSize", encInt a.runtimeVal_ConstantBufferSize),
    ("isSecondCompile", encBool a.isSecondCompile),
    ("isRowMajor", encInt a.isRowMajor),
    ("numChannelsUsed", encInt a.numChannelsUsed)]

/-- Modelled from the spec: reads a ComputeShaderSecondCompileInputInfoMD record; a missing or malformed child
gives the member its default (§4.2). -/
def decComputeShaderSecondCompileInputInfoMD (n : Option Node) : ComputeShaderSecondCompileInputInfoMD where
  runtimeVal_ResWidthHeight := decWith asInt? 0 (Node.child "runtimeVal_ResWidthHeight" n)
  runtimeVal_LoopCount := decWith asInt? 0 (Node.child "runtimeVal_LoopCount" n)
  runtimeVal_ConstantBufferSize := decWith asInt? 0 (Node.child "runtimeVal_ConstantBufferSize" n)
  isSecondCompile := decWith asBool? false (Node.child "isSecondCompile" n)
  isRowMajor := decWith asInt? 0 (Node.child "isRowMajor" n)
  numChannelsUsed := decWith asInt? 0 (Node.child "numChannelsUsed" n)

/-- Modelled from the spec: a LocalOffsetMD record as a named-record node, one named child
per member (§4.2). -/
def encLocalOffsetMD (a : LocalOffsetMD) : Node :=
  .record [
    ("m_Offset", encInt a.m_Offset),
    ("m_Var", encPtr a.m_Var)]

/-- Modelled from the spec: reads a LocalOffsetMD record; a missing or malformed child
gives the member its default, or the value-initialised zero where the header declares none (§4.2). -/
def decLocalOffsetMD (n : Option Node) : LocalOffsetMD where
  m_Offset := decWith asInt? 0 (Node.child "m_Offset" n)
  m_Var := decWith asUInt? 0 (Node.child "m_Var" n)

/-- Modelled from the spec: a WorkGroupWalkOrderMD record as a named-record node, one named child
per member (§4.2). -/
def encWorkGroupWalkOrderMD (a : WorkGroupWalkOrderMD) : Node :=
  .record [
    ("dim0", encInt a.dim0),
    ("dim1", encInt a.dim1),
    ("dim2", encInt a.dim2)]

/-- Modelled from the spec: reads a WorkGroupWalkOrderMD record; a missing or malformed child
gives the member its default (§4.2). -/
def decWorkGroupWalkOrderMD (n : Option Node) : WorkGroupWalkOrderMD where
  dim0 := decWith asInt? 0 (Node.child "dim0" n)
  dim1 := decWith asInt? 0 (Node.child "dim1" n)
  dim2 := decWith asInt? 0 (Node.child "dim2" n)

/-- Modelled from the spec: a FuncArgMD record as a named-record node, one named child
per member (§4.2). -/
def encFuncArgMD (a : FuncArgMD) : Node :=
  .record [
    ("bufferLocationIndex", encInt a.bufferLocationIndex),
    ("bufferLocationCount", encInt a.bufferLocationCount),
    ("isEmulationArg", encBool a.isEmulationArg)]

/-- Modelled from the spec: reads a FuncArgMD record; a missing or malformed child
gives the member its default (§4.2). -/
def decFuncArgMD (n : Option Node) : FuncArgMD where
  bufferLocationIndex := decWith asInt? (-1) (Node.child "bufferLocationIndex" n)
  bufferLocationCount := decWith asInt? (-1) (Node.child "bufferLocationCount" n)
  isEmulationArg := decWith asBool? false (Node.child "isEmulationArg" n)

/-- Modelled from the spec: a StackFrameEntry record as a named-record node, one named child
per member (§4.2). -/
def encStackFrameEntry (a : StackFrameEntry) : Node :=
  .record [
    ("Name", encString a.Name),
    ("TypeRepr", encString a.TypeRepr),
    ("EntryType", StackEntryType.enc a.EntryType),
    ("Size", encUInt a.Size),
    ("Offset", encUInt a.Offset)]

/-- Modelled from the spec: reads a StackFrameEntry record; a missing or malformed child
gives the member its default (§4.2). -/
def decStackFrameEntry (n : Option Node) : StackFrameEntry where
  Name := decWith asString? "" (Node.child "Name" n)
  TypeRepr := decWith asString? "" (Node.child "TypeRepr" n)
  EntryType := decWith StackEntryType.as? StackEntryType.ENTRY_UNKNOWN (Node.child "EntryType" n)
  Size := decWith asUInt? 0 (Node.child "Size" n)
  Offset := decWith asUInt? 0 (Node.child "Offset" n)

/-- Modelled from the spec: a StackFrameSpillUnion record as a named-record node, one named child
per member (§4.2). -/
def encStackFrameSpillUnion (a : StackFrameSpillUnion) : Node :=
  .record [
    ("ContinuationName", encString a.ContinuationName),
    ("Entries", encList encStackFrameEntry a.Entries)]

/-- Modelled from the spec: reads a StackFrameSpillUnion record; a missing or malformed child
gives the member its default (§4.2). -/
def decStackFrameSpillUnion (n : Option Node) : StackFrameSpillUnion where
  ContinuationName := decWith asString? "" (Node.child "ContinuationName" n)
  Entries := decList decStackFrameEntry (Node.child "Entries" n)

/-- Modelled from the spec: a RayTracingSWTypes record as a named-record node, one named child
per member (§4.2). -/
def encRayTracingSWTypes (a : RayTracingSWTypes) : Node :=
  .record [
    ("FrameStartTys", encList encPtr a.FrameStartTys),
    ("ArgumentTys", encList encPtr a.ArgumentTys),
    ("FullFrameTys", encList encPtr a.FullFrameTys)]

/-- Modelled from the spec: reads a RayTracingSWTypes record; a missing or malformed child
gives the member its default (§4.2). -/
def decRayTracingSWTypes (n : Option Node) : RayTracingSWTypes where
  FrameStartTys := decList (decWith asUInt? 0) (Node.child "FrameStartTys" n)
  ArgumentTys := decList (decWith asUInt? 0) (Node.child "ArgumentTys" n)
  FullFrameTys := decList (decWith asUInt? 0) (Node.child "FullFrameTys" n)

/-- Modelled from the spec: a RayTraceModuleInfo record as a named-record node, one named child
per member (§4.2). -/
def encRayTraceModuleInfo (a : RayTraceModuleInfo) : Node :=
  .record [
    ("RayQueryAllocSizeInBytes", encUInt a.RayQueryAllocSizeInBytes),
    ("NumContinuations", encUInt a.NumContinuations),
    ("RTAsyncStackAddrspace", encUInt a.RTAsyncStackAddrspace),
    ("RTAsyncStackSurfaceStateOffset", encOptional encUInt a.RTAsyncStackSurfaceStateOffset),
    ("SWHotZoneAddrspace", encUInt a.SWHotZoneAddrspace),
    ("SWHotZoneSurfaceStateOffset", encOptional encUInt a.SWHotZoneSurfaceStateOffset),
    ("SWStackAddrspace", encUInt a.SWStackAddrspace),
    ("SWStackSurfaceStateOffset", encOptional encUInt a.SWStackSurfaceStateOffset),
    ("RTSyncStackAddrspace", encUInt a.RTSyncStackAddrspace),
    ("RTSyncStackSurfaceStateOffset", encOptional encUInt a.RTSyncStackSurfaceStateOffset)]

/-- Modelled from the spec: reads a RayTraceModuleInfo record; a missing or malformed child
gives the member its default (§4.2). -/
def decRayTraceModuleInfo (n : Option Node) : RayTraceModuleInfo where
  RayQueryAllocSizeInBytes := decWith asUInt? 0 (Node.child "RayQueryAllocSizeInBytes" n)
  NumContinuations := decWith asUInt? UINT_MAX (Node.child "NumContinuations" n)
  RTAsyncStackAddrspace := decWith asUInt? UINT_MAX (Node.child "RTAsyncStackAddrspace" n)
  RTAsyncStackSurfaceStateOffset := decOptional asUInt? none (Node.child "RTAsyncStackSurfaceStateOffset" n)
  SWHotZoneAddrspace := decWith asUInt? UINT_MAX (Node.child "SWHotZoneAddrspace" n)
  SWHotZoneSurfaceStateOffset := decOptional asUInt? none (Node.child "SWHotZoneSurfaceStateOffset" n)
  SWStackAddrspace := decWith asUInt? UINT_MAX (Node.child "SWStackAddrspace" n)
  SWStackSurfaceStateOffset := decOptional asUInt? none (Node.child "SWStackSurfaceStateOffset" n)
  RTSyncStackAddrspace := decWith asUInt? UINT_MAX (Node.child "RTSyncStackAddrspace" n)
  RTSyncStackSurfaceStateOffset := decOptional asUInt? none (Node.child "RTSyncStackSurfaceStateOffset" n)

/-- Modelled from the spec: a RayTraceShaderInfo record as a named-record node, one named child
per member (§4.2). -/
def encRayTraceShaderInfo {inc : Includes} (a : RayTraceShaderInfo inc) : Node :=
  .record [
    ("callableShaderType", CallableShaderTypeMD.enc a.callableShaderType),
    ("isContinuation", encBool a.isContinuation),
    ("hasTraceRayPayload", encBool a.hasTraceRayPayload),
    ("hasHitAttributes", encBool a.hasHitAttributes),
    ("hasCallableData", encBool a.hasCallableData),
    ("ShaderStackSize", encUInt a.ShaderStackSize),
    ("ShaderHash", encUInt a.ShaderHash),
    ("ShaderName", encString a.ShaderName),
    ("ParentName", encString a.ParentName),
    ("SlotNum", encOptional encUInt a.SlotNum),
    ("NOSSize", encUInt a.NOSSize),
    ("Entries", encList encStackFrameEntry a.Entries),
    ("SpillUnions", encList encStackFrameSpillUnion a.SpillUnions),
    ("CustomHitAttrSizeInBytes", encUInt a.CustomHitAttrSizeInBytes),
    ("Types", encRayTracingSWTypes a.Types),
    ("Aliases", encList encString a.Aliases)]

/-- Modelled from the spec: reads a RayTraceShaderInfo record; a missing or malformed child
gives the member its default (§4.2). -/
def decRayTraceShaderInfo (inc : Includes) (n : Option Node) : RayTraceShaderInfo inc where
  callableShaderType := decWith (CallableShaderTypeMD.as? inc) (CallableShaderTypeMD.NumberOfCallableShaderTypes) (Node.child "callableShaderType" n)
  isContinuation := decWith asBool? false (Node.child "isContinuation" n)
  hasTraceRayPayload := decWith asBool? false (Node.child "hasTraceRayPayload" n)
  hasHitAttributes := decWith asBool? false (Node.child "hasHitAttributes" n)
  hasCallableData := decWith asBool? false (Node.child "hasCallableData" n)
  ShaderStackSize := decWith asUInt? 0 (Node.child "ShaderStackSize" n)
  ShaderHash := decWith asUInt? 0 (Node.child "ShaderHash" n)
  ShaderName := decWith asString? "" (Node.child "ShaderName" n)
  ParentName := decWith asString? "" (Node.child "ParentName" n)
  SlotNum := decOptional asUInt? none (Node.child "SlotNum" n)
  NOSSize := decWith asUInt? 0 (Node.child "NOSSize" n)
  Entries := decList decStackFrameEntry (Node.child "Entries" n)
  SpillUnions := decList decStackFrameSpillUnion (Node.child "SpillUnions" n)
  CustomHitAttrSizeInBytes := decWith asUInt? 0 (Node.child "CustomHitAttrSizeInBytes" n)
  Types := decRayTracingSWTypes (Node.child "Types" n)
  Aliases := decList (decWith asString? "") (Node.child "Aliases" n)

/-- Modelled from the spec: a ConstantAddress record as a named-record node, one named child
per member (§4.2). -/
def encConstantAddress (a : ConstantAddress) : Node :=
  .record [
    ("bufId", encUInt a.bufId),
    ("eltId", encUInt a.eltId),
    ("size", encUInt a.size)]

/-- Modelled from the spec: reads a ConstantAddress record; a missing or malformed child
gives the member its default (§4.2). -/
def decConstantAddress (n : Option Node) : ConstantAddress where
  bufId := decWith asUInt? 0 (Node.child "bufId" n)
  eltId := decWith asUInt? 0 (Node.child "eltId" n)
  size := decWith asUInt? 0 (Node.child "size" n)

/-- Modelled from the spec: a FunctionMetaData record as a named-record node, one named child
per member (§4.2). -/
def encFunctionMetaData {inc : Includes} (a : FunctionMetaData inc) : Node :=
  .record [
    ("localOffsets", encList encLocalOffsetMD a.localOffsets),
    ("workGroupWalkOrder", encWorkGroupWalkOrderMD a.workGroupWalkOrder),
    ("funcArgs", encList encFuncArgMD a.funcArgs),
    ("functionType", FunctionTypeMD.enc a.functionType),
    ("rtInfo", encRayTraceShaderInfo a.rtInfo),
    ("resAllocMD", encResourceAllocMD a.resAllocMD),
    ("maxByteOffsets", encList encUInt a.maxByteOffsets),
    ("IsInitializer", encBool a.IsInitializer),
    ("IsFinalizer", encBool a.IsFinalizer),
    ("CompiledSubGroupsNumber", encUInt a.CompiledSubGroupsNumber),
    ("hasInlineVmeSamplers", encBool a.hasInlineVmeSamplers),
    ("localSize", encInt a.localSize),
    ("localIDPresent", encBool a.localIDPresent),
    ("groupIDPresent", encBool a.groupIDPresent),
    ("privateMemoryPerWI", encInt a.privateMemoryPerWI),
    ("globalIDPresent", encBool a.globalIDPresent),
    ("hasSyncRTCalls", encBool a.hasSyncRTCalls),
    ("hasNonKernelArgLoad", encBool a.hasNonKernelArgLoad),
    ("hasNonKernelArgStore", encBool a.hasNonKernelArgStore),
    ("hasNonKernelArgAtomic", encBool a.hasNonKernelArgAtomic),
    ("UserAnnotations", encList encString a.UserAnnotations),
    ("m_OpenCLArgAddressSpaces", encList encInt a.m_OpenCLArgAddressSpaces),
    ("m_OpenCLArgAccessQualifiers", encList encString a.m_OpenCLArgAccessQualifiers),
    ("m_OpenCLArgTypes", encList encString a.m_OpenCLArgTypes),
    ("m_OpenCLArgBaseTypes", encList encString a.m_OpenCLArgBaseTypes),
    ("m_OpenCLArgTypeQualifiers", encList encString a.m_OpenCLArgTypeQualifiers),
    ("m_OpenCLArgNames", encList encString a.m_OpenCLArgNames)]

/-- Modelled from the spec: reads a FunctionMetaData record; a missing or malformed child
gives the member its default (§4.2). -/
def decFunctionMetaData (inc : Includes) (n : Option Node) : FunctionMetaData inc where
  localOffsets := decList decLocalOffsetMD (Node.child "localOffsets" n)
  workGroupWalkOrder := decWorkGroupWalkOrderMD (Node.child "workGroupWalkOrder" n)
  funcArgs := decList decFuncArgMD (Node.child "funcArgs" n)
  functionType := decWith FunctionTypeMD.as? FunctionTypeMD.KernelFunction (Node.child "functionType" n)
  rtInfo := decRayTraceShaderInfo inc (Node.child "rtInfo" n)
  resAllocMD := decResourceAllocMD (Node.child "resAllocMD" n)
  maxByteOffsets := decList (decWith asUInt? 0) (Node.child "maxByteOffsets" n)
  IsInitializer := decWith asBool? false (Node.child "IsInitializer" n)
  IsFinalizer := decWith asBool? false (Node.child "IsFinalizer" n)
  CompiledSubGroupsNumber := decWith asUInt? 0 (Node.child "CompiledSubGroupsNumber" n)
  hasInlineVmeSamplers := decWith asBool? false (Node.child "hasInlineVmeSamplers" n)
  localSize := decWith asInt? 0 (Node.child "localSize" n)
  localIDPresent := decWith asBool? false (Node.child "localIDPresent" n)
  groupIDPresent := decWith asBool? false (Node.child "groupIDPresent" n)
  privateMemoryPerWI := decWith asInt? 0 (Node.child "privateMemoryPerWI" n)
  globalIDPresent := decWith asBool? false (Node.child "globalIDPresent" n)
  hasSyncRTCalls := decWith asBool? false (Node.child "hasSyncRTCalls" n)
  hasNonKernelArgLoad := decWith asBool? false (Node.child "hasNonKernelArgLoad" n)
  hasNonKernelArgStore := decWith asBool? false (Node.child "hasNonKernelArgStore" n)
  hasNonKernelArgAtomic := decWith asBool? false (Node.child "hasNonKernelArgAtomic" n)
  UserAnnotations := decList (decWith asString? "") (Node.child "UserAnnotations" n)
  m_OpenCLArgAddressSpaces := decList (decWith asInt? 0) (Node.child "m_OpenCLArgAddressSpaces" n)
  m_OpenCLArgAccessQualifiers := decList (decWith asString? "") (Node.child "m_OpenCLArgAccessQualifiers" n)
  m_OpenCLArgTypes := decList (decWith asString? "") (Node.child "m_OpenCLArgTypes" n)
  m_OpenCLArgBaseTypes := decList (decWith asString? "") (Node.child "m_OpenCLArgBaseTypes" n)
  m_OpenCLArgTypeQualifiers := decList (decWith asString? "") (Node.child "m_OpenCLArgTypeQualifiers" n)
  m_OpenCLArgNames := decList (decWith asString? "") (Node.child "m_OpenCLArgNames" n)

/-- Modelled from the spec: a CompOptions record as a named-record node, one named child
per member (§4.2). -/
def encCompOptions {inc : Includes} (a : CompOptions inc) : Node :=
  .record [
    ("DenormsAreZero", encBool a.DenormsAreZero),
    ("CorrectlyRoundedDivSqrt", encBool a.CorrectlyRoundedDivSqrt),
    ("OptDisable", encBool a.OptDisable),
    ("MadEnable", encBool a.MadEnable),
    ("NoSignedZeros", encBool a.NoSignedZeros),
    ("NoNaNs", encBool a.NoNaNs),
    ("FloatRoundingMode", encUInt a.FloatRoundingMode),
    ("FloatCvtIntRoundingMode", encUInt a.FloatCvtIntRoundingMode),
    ("VISAPreSchedRPThreshold", encUInt a.VISAPreSchedRPThreshold),
    ("SetLoopUnrollThreshold", encUInt a.SetLoopUnrollThreshold),
    ("UnsafeMathOptimizations", encBool a.UnsafeMathOptimizations),
    ("FiniteMathOnly", encBool a.FiniteMathOnly),
    ("FastRelaxedMath", encBool a.FastRelaxedMath),
    ("DashGSpecified", encBool a.DashGSpecified),
    ("FastCompilation", encBool a.FastCompilation),
    ("UseScratchSpacePrivateMemory", encBool a.UseScratchSpacePrivateMemory),
    ("RelaxedBuiltins", encBool a.RelaxedBuiltins),
    ("SubgroupIndependentForwardProgressRequired", encBool a.SubgroupIndependentForwardProgressRequired),
    ("GreaterThan2GBBufferRequired", encBool a.GreaterThan2GBBufferRequired),
    ("GreaterThan4GBBufferRequired", encBool a.GreaterThan4GBBufferRequired),
    ("DisableA64WA", encBool a.DisableA64WA),
    ("ForceEnableA64WA", encBool a.ForceEnableA64WA),
    ("PushConstantsEnable", encBool a.PushConstantsEnable),
    ("HasPositivePointerOffset", encBool a.HasPositivePointerOffset),
    ("HasBufferOffsetArg", encBool a.HasBufferOffsetArg),
    ("BufferOffsetArgOptional", encBool a.BufferOffsetArgOptional),
    ("HasSubDWAlignedPtrArg", encBool a.HasSubDWAlignedPtrArg),
    ("replaceGlobalOffsetsByZero", encBool a.replaceGlobalOffsetsByZero),
    ("forcePixelShaderSIMDMode", encUInt a.forcePixelShaderSIMDMode),
    ("pixelShaderDoNotAbortOnSpill", encBool a.pixelShaderDoNotAbortOnSpill),
    ("UniformWGS", encBool a.UniformWGS),
    ("disableVertexComponentPacking", encBool a.disableVertexComponentPacking),
    ("disablePartialVertexComponentPacking", encBool a.disablePartialVertexComponentPacking),
    ("PreferBindlessImages", encBool a.PreferBindlessImages),
    ("UseBindlessMode", encBool a.UseBindlessMode),
    ("UseLegacyBindlessMode", encBool a.UseLegacyBindlessMode),
    ("disableMathRefactoring", encBool a.disableMathRefactoring),
    ("atomicBranch", encBool a.atomicBranch),
    ("ForceMinSimdSizeForFastestCS", encBool a.ForceMinSimdSizeForFastestCS),
    ("EnableFastestLinearScan", encBool a.EnableFastestLinearScan),
    ("UseStatelessforPrivateMemory", encBool a.UseStatelessforPrivateMemory),
    ("EnableTakeGlobalAddress", encBool a.EnableTakeGlobalAddress),
    ("IsLibraryCompilation", encBool a.IsLibraryCompilation),
    ("FastVISACompile", encBool a.FastVISACompile),
    ("MatchSinCosPi", encBool a.MatchSinCosPi),
    ("CaptureCompilerStats", encBool a.CaptureCompilerStats),
    ("EnableZEBinary", encBool a.EnableZEBinary),
    ("ExcludeIRFromZEBinary", encBool a.ExcludeIRFromZEBinary),
    ("allowDisableRematforCS", encBool a.allowDisableRematforCS),
    ("DisableIncSpillCostAllAddrTaken", encBool a.DisableIncSpillCostAllAddrTaken),
    ("DisableCPSOmaskWA", encBool a.DisableCPSOmaskWA),
    ("WaForceHalfPromotion", encBool a.WaForceHalfPromotion)]

/-- Modelled from the spec: reads a CompOptions record; a missing or malformed child
gives the member its default (§4.2). -/
def decCompOptions (inc : Includes) (n : Option Node) : CompOptions inc where
  DenormsAreZero := decWith asBool? false (Node.child "DenormsAreZero" n)
  CorrectlyRoundedDivSqrt := decWith asBool? false (Node.child "CorrectlyRoundedDivSqrt" n)
  OptDisable := decWith asBool? false (Node.child "OptDisable" n)
  MadEnable := decWith asBool? false (Node.child "MadEnable" n)
  NoSignedZeros := decWith asBool? false (Node.child "NoSignedZeros" n)
  NoNaNs := decWith asBool? false (Node.child "NoNaNs" n)
  FloatRoundingMode := decWith asUInt? inc.ROUND_TO_NEAREST_EVEN (Node.child "FloatRoundingMode" n)
  FloatCvtIntRoundingMode := decWith asUInt? inc.ROUND_TO_ZERO (Node.child "FloatCvtIntRoundingMode" n)
  VISAPreSchedRPThreshold := decWith asUInt? 0 (Node.child "VISAPreSchedRPThreshold" n)
  SetLoopUnrollThreshold := decWith asUInt? 0 (Node.child "SetLoopUnrollThreshold" n)
  UnsafeMathOptimizations := decWith asBool? false (Node.child "UnsafeMathOptimizations" n)
  FiniteMathOnly := decWith asBool? false (Node.child "FiniteMathOnly" n)
  FastRelaxedMath := decWith asBool? false (Node.child "FastRelaxedMath" n)
  DashGSpecified := decWith asBool? false (Node.child "DashGSpecified" n)
  FastCompilation := decWith asBool? false (Node.child "FastCompilation" n)
  UseScratchSpacePrivateMemory := decWith asBool? true (Node.child "UseScratchSpacePrivateMemory" n)
  RelaxedBuiltins := decWith asBool? false (Node.child "RelaxedBuiltins" n)
  SubgroupIndependentForwardProgressRequired := decWith asBool? true (Node.child "SubgroupIndependentForwardProgressRequired" n)
  GreaterThan2GBBufferRequired := decWith asBool? true (Node.child "GreaterThan2GBBufferRequired" n)
  GreaterThan4GBBufferRequired := decWith asBool? true (Node.child "GreaterThan4GBBufferRequired" n)
  DisableA64WA := decWith asBool? false (Node.child "DisableA64WA" n)
  ForceEnableA64WA := decWith asBool? false (Node.child "ForceEnableA64WA" n)
  PushConstantsEnable := decWith asBool? true (Node.child "PushConstantsEnable" n)
  HasPositivePointerOffset := decWith asBool? false (Node.child "HasPositivePointerOffset" n)
  HasBufferOffsetArg := decWith asBool? false (Node.child "HasBufferOffsetArg" n)
  BufferOffsetArgOptional := decWith asBool? true (Node.child "BufferOffsetArgOptional" n)
  HasSubDWAlignedPtrArg := decWith asBool? false (Node.child "HasSubDWAlignedPtrArg" n)
  replaceGlobalOffsetsByZero := decWith asBool? false (Node.child "replaceGlobalOffsetsByZero" n)
  forcePixelShaderSIMDMode := decWith asUInt? 0 (Node.child "forcePixelShaderSIMDMode" n)
  pixelShaderDoNotAbortOnSpill := decWith asBool? false (Node.child "pixelShaderDoNotAbortOnSpill" n)
  UniformWGS := decWith asBool? false (Node.child "UniformWGS" n)
  disableVertexComponentPacking := decWith asBool? false (Node.child "disableVertexComponentPacking" n)
  disablePartialVertexComponentPacking := decWith asBool? false (Node.child "disablePartialVertexComponentPacking" n)
  PreferBindlessImages := decWith asBool? false (Node.child "PreferBindlessImages" n)
  UseBindlessMode := decWith asBool? false (Node.child "UseBindlessMode" n)
  UseLegacyBindlessMode := decWith asBool? true (Node.child "UseLegacyBindlessMode" n)
  disableMathRefactoring := decWith asBool? false (Node.child "disableMathRefactoring" n)
  atomicBranch := decWith asBool? false (Node.child "atomicBranch" n)
  ForceMinSimdSizeForFastestCS := decWith asBool? false (Node.child "ForceMinSimdSizeForFastestCS" n)
  EnableFastestLinearScan := decWith asBool? false (Node.child "EnableFastestLinearScan" n)
  UseStatelessforPrivateMemory := decWith asBool? false (Node.child "UseStatelessforPrivateMemory" n)
  EnableTakeGlobalAddress := decWith asBool? false (Node.child "EnableTakeGlobalAddress" n)
  IsLibraryCompilation := decWith asBool? false (Node.child "IsLibraryCompilation" n)
  FastVISACompile := decWith asBool? false (Node.child "FastVISACompile" n)
  MatchSinCosPi := decWith asBool? false (Node.child "MatchSinCosPi" n)
  CaptureCompilerStats := decWith asBool? false (Node.child "CaptureCompilerStats" n)
  EnableZEBinary := decWith asBool? false (Node.child "EnableZEBinary" n)
  ExcludeIRFromZEBinary := decWith asBool? false (Node.child "ExcludeIRFromZEBinary" n)
  allowDisableRematforCS := decWith asBool? false (Node.child "allowDisableRematforCS" n)
  DisableIncSpillCostAllAddrTaken := decWith asBool? false (Node.child "DisableIncSpillCostAllAddrTaken" n)
  DisableCPSOmaskWA := decWith asBool? false (Node.child "DisableCPSOmaskWA" n)
  WaForceHalfPromotion := decWith asBool? false (Node.child "WaForceHalfPromotion" n)

/-- Modelled from the spec: a ComputeShaderInfo record as a named-record node, one named child
per member (§4.2). -/
def encComputeShaderInfo (a : ComputeShaderInfo) : Node :=
  .record [
    ("maxWorkGroupSize", encUInt a.maxWorkGroupSize),
    ("waveSize", encUInt a.waveSize),
    ("ComputeShaderSecondCompile", encList encComputeShaderSecondCompileInputInfoMD a.ComputeShaderSecondCompile),
    ("forcedSIMDSize", encUInt a.forcedSIMDSize),
    ("forceTotalGRFNum", encUInt a.forceTotalGRFNum),
    ("VISAPreSchedRPThreshold", encUInt a.VISAPreSchedRPThreshold),
    ("SetLoopUnrollThreshold", encUInt a.SetLoopUnrollThreshold),
    ("forcedVISAPreRAScheduler", encBool a.forcedVISAPreRAScheduler),
    ("disableLocalIdOrderOptimizations", encBool a.disableLocalIdOrderOptimizations),
    ("disableDispatchAlongY", encBool a.disableDispatchAlongY),
    ("neededThreadIdLayout", encOptional ThreadIDLayout.enc a.neededThreadIdLayout),
    ("forceTileYWalk", encBool a.forceTileYWalk),
    ("atomicBranch", encBool a.atomicBranch),
    ("ResForHfPacking", encList (encList encUInt) a.ResForHfPacking)]

/-- Modelled from the spec: reads a ComputeShaderInfo record; a missing or malformed child
gives the member its default (§4.2). -/
def decComputeShaderInfo (n : Option Node) : ComputeShaderInfo where
  maxWorkGroupSize := decWith asUInt? 0 (Node.child "maxWorkGroupSize" n)
  waveSize := decWith asUInt? 0 (Node.child "waveSize" n)
  ComputeShaderSecondCompile := decList decComputeShaderSecondCompileInputInfoMD (Node.child "ComputeShaderSecondCompile" n)
  forcedSIMDSize := decWith asUInt? 0 (Node.child "forcedSIMDSize" n)
  forceTotalGRFNum := decWith asUInt? 0 (Node.child "forceTotalGRFNum" n)
  VISAPreSchedRPThreshold := decWith asUInt? 0 (Node.child "VISAPreSchedRPThreshold" n)
  SetLoopUnrollThreshold := decWith asUInt? 0 (Node.child "SetLoopUnrollThreshold" n)
  forcedVISAPreRAScheduler := decWith asBool? false (Node.child "forcedVISAPreRAScheduler" n)
  disableLocalIdOrderOptimizations := decWith asBool? false (Node.child "disableLocalIdOrderOptimizations" n)
  disableDispatchAlongY := decWith asBool? false (Node.child "disableDispatchAlongY" n)
  neededThreadIdLayout := decOptional ThreadIDLayout.as? none (Node.child "neededThreadIdLayout" n)
  forceTileYWalk := decWith asBool? false (Node.child "forceTileYWalk" n)
  atomicBranch := decWith asBool? false (Node.child "atomicBranch" n)
  ResForHfPacking := decList (decList (decWith asUInt? 0)) (Node.child "ResForHfPacking" n)

/-- Modelled from the spec: a PixelShaderInfo record as a named-record node, one named child
per member (§4.2). -/
def encPixelShaderInfo (a : PixelShaderInfo) : Node :=
  .record [
    ("BlendStateDisabledMask", encUInt a.BlendStateDisabledMask),
    ("SkipSrc0Alpha", encBool a.SkipSrc0Alpha),
    ("DualSourceBlendingDisabled", encBool a.DualSourceBlendingDisabled),
    ("ForceEnableSimd32", encBool a.ForceEnableSimd32),
    ("outputDepth", encBool a.outputDepth),
    ("outputStencil", encBool a.outputStencil),
    ("outputMask", encBool a.outputMask),
    ("blendToFillEnabled", encBool a.blendToFillEnabled),
    ("forceEarlyZ", encBool a.forceEarlyZ),
    ("hasVersionedLoop", encBool a.hasVersionedLoop),
    ("forceSingleSourceRTWAfterDualSourceRTW", encBool a.forceSingleSourceRTWAfterDualSourceRTW),
    ("NumSamples", encUInt a.NumSamples),
    ("blendOptimizationMode", encList encInt a.blendOptimizationMode),
    ("colorOutputMask", encList encInt a.colorOutputMask)]

/-- Modelled from the spec: reads a PixelShaderInfo record; a missing or malformed child
gives the member its default (§4.2). -/
def decPixelShaderInfo (n : Option Node) : PixelShaderInfo where
  BlendStateDisabledMask := decWith asUInt? 0 (Node.child "BlendStateDisabledMask" n)
  SkipSrc0Alpha := decWith asBool? false (Node.child "SkipSrc0Alpha" n)
  DualSourceBlendingDisabled := decWith asBool? false (Node.child "DualSourceBlendingDisabled" n)
  ForceEnableSimd32 := decWith asBool? false (Node.child "ForceEnableSimd32" n)
  outputDepth := decWith asBool? false (Node.child "outputDepth" n)
  outputStencil := decWith asBool? false (Node.child "outputStencil" n)
  outputMask := decWith asBool? false (Node.child "outputMask" n)
  blendToFillEnabled := decWith asBool? false (Node.child "blendToFillEnabled" n)
  forceEarlyZ := decWith asBool? false (Node.child "forceEarlyZ" n)
  hasVersionedLoop := decWith asBool? false (Node.child "hasVersionedLoop" n)
  forceSingleSourceRTWAfterDualSourceRTW := decWith asBool? false (Node.child "forceSingleSourceRTWAfterDualSourceRTW" n)
  NumSamples := decWith asUInt? 0 (Node.child "NumSamples" n)
  blendOptimizationMode := decList (decWith asInt? 0) (Node.child "blendOptimizationMode" n)
  colorOutputMask := decList (decWith asInt? 0) (Node.child "colorOutputMask" n)

/-- Modelled from the spec: a MeshShaderInfo record as a named-record node, one named child
per member (§4.2). -/
def encMeshShaderInfo (a : MeshShaderInfo) : Node :=
  .record [
    ("PrimitiveTopology", encUInt a.PrimitiveTopology),
    ("MaxNumOfPrimitives", encUInt a.MaxNumOfPrimitives),
    ("MaxNumOfVertices", encUInt a.MaxNumOfVertices),
    ("MaxNumOfPerPrimitiveOutputs", encUInt a.MaxNumOfPerPrimitiveOutputs),
    ("MaxNumOfPerVertexOutputs", encUInt a.MaxNumOfPerVertexOutputs),
    ("WorkGroupSize", encUInt a.WorkGroupSize),
    ("WorkGroupMemorySizeInBytes", encUInt a.WorkGroupMemorySizeInBytes),
    ("IndexFormat", encUInt a.IndexFormat),
    ("SubgroupSize", encUInt a.SubgroupSize)]

/-- Modelled from the spec: reads a MeshShaderInfo record; a missing or malformed child
gives the member its default (§4.2). -/
def decMeshShaderInfo (n : Option Node) : MeshShaderInfo where
  PrimitiveTopology := decWith asUInt? 3 (Node.child "PrimitiveTopology" n)
  MaxNumOfPrimitives := decWith asUInt? 0 (Node.child "MaxNumOfPrimitives" n)
  MaxNumOfVertices := decWith asUInt? 0 (Node.child "MaxNumOfVertices" n)
  MaxNumOfPerPrimitiveOutputs := decWith asUInt? 0 (Node.child "MaxNumOfPerPrimitiveOutputs" n)
  MaxNumOfPerVertexOutputs := decWith asUInt? 0 (Node.child "MaxNumOfPerVertexOutputs" n)
  WorkGroupSize := decWith asUInt? 0 (Node.child "WorkGroupSize" n)
  WorkGroupMemorySizeInBytes := decWith asUInt? 0 (Node.child "WorkGroupMemorySizeInBytes" n)
  IndexFormat := decWith asUInt? 6 (Node.child "IndexFormat" n)
  SubgroupSize := decWith asUInt? 0 (Node.child "SubgroupSize" n)

/-- Modelled from the spec: a TaskShaderInfo record as a named-record node, one named child
per member (§4.2). -/
def encTaskShaderInfo (a : TaskShaderInfo) : Node :=
  .record [
    ("MaxNumOfOutputs", encUInt a.MaxNumOfOutputs),
    ("WorkGroupSize", encUInt a.WorkGroupSize),
    ("WorkGroupMemorySizeInBytes", encUInt a.WorkGroupMemorySizeInBytes),
    ("SubgroupSize", encUInt a.SubgroupSize)]

/-- Modelled from the spec: reads a TaskShaderInfo record; a missing or malformed child
gives the member its default (§4.2). -/
def decTaskShaderInfo (n : Option Node) : TaskShaderInfo where
  MaxNumOfOutputs := decWith asUInt? 0 (Node.child "MaxNumOfOutputs" n)
  WorkGroupSize := decWith asUInt? 0 (Node.child "WorkGroupSize" n)
  WorkGroupMemorySizeInBytes := decWith asUInt? 0 (Node.child "WorkGroupMemorySizeInBytes" n)
  SubgroupSize := decWith asUInt? 0 (Node.child "SubgroupSize" n)

/-- Modelled from the spec: a SInputDesc record as a named-record node, one named child
per member (§4.2). -/
def encSInputDesc (a : SInputDesc) : Node :=
  .record [
    ("index", encUInt a.index),
    ("argIndex", encInt a.argIndex),
    ("interpolationMode", encInt a.interpolationMode)]

/-- Modelled from the spec: reads a SInputDesc record; a missing or malformed child
gives the member its default (§4.2). -/
def decSInputDesc (n : Option Node) : SInputDesc where
  index := decWith asUInt? 0 (Node.child "index" n)
  argIndex := decWith asInt? 0 (Node.child "argIndex" n)
  interpolationMode := decWith asInt? 0 (Node.child "interpolationMode" n)

/-- Modelled from the spec: a SimplePushInfo record as a named-record node, one named child
per member (§4.2). -/
def encSimplePushInfo (a : SimplePushInfo) : Node :=
  .record [
    ("cbIdx", encUInt a.cbIdx),
    ("pushableAddressGrfOffset", encInt a.pushableAddressGrfOffset),
    ("pushableOffsetGrfOffset", encInt a.pushableOffsetGrfOffset),
    ("offset", encUInt a.offset),
    ("size", encUInt a.size),
    ("isStateless", encBool a.isStateless),
    ("isBindless", encBool a.isBindless),
    ("simplePushLoads", encStdMap encUInt encInt a.simplePushLoads)]

/-- Modelled from the spec: reads a SimplePushInfo record; a missing or malformed child
gives the member its default (§4.2). -/
def decSimplePushInfo (n : Option Node) : SimplePushInfo where
  cbIdx := decWith asUInt? 0 (Node.child "cbIdx" n)
  pushableAddressGrfOffset := decWith asInt? (-1) (Node.child "pushableAddressGrfOffset" n)
  pushableOffsetGrfOffset := decWith asInt? (-1) (Node.child "pushableOffsetGrfOffset" n)
  offset := decWith asUInt? 0 (Node.child "offset" n)
  size := decWith asUInt? 0 (Node.child "size" n)
  isStateless := decWith asBool? false (Node.child "isStateless" n)
  isBindless := decWith asBool? false (Node.child "isBindless" n)
  simplePushLoads := decStdMap asUInt? (decWith asInt? 0) (Node.child "simplePushLoads" n)

/-- Modelled from the spec: a StatelessPushInfo record as a named-record node, one named child
per member (§4.2). -/
def encStatelessPushInfo (a : StatelessPushInfo) : Node :=
  .record [
    ("addressOffset", encUInt a.addressOffset),
    ("isStatic", encBool a.isStatic)]

/-- Modelled from the spec: reads a StatelessPushInfo record; a missing or malformed child
gives the member its default (§4.2). -/
def decStatelessPushInfo (n : Option Node) : StatelessPushInfo where
  addressOffset := decWith asUInt? 0 (Node.child "addressOffset" n)
  isStatic := decWith asBool? false (Node.child "isStatic" n)

/-- Modelled from the spec: a DynamicBufferInfo record as a named-record node, one named child
per member (§4.2). -/
def encDynamicBufferInfo (a : DynamicBufferInfo) : Node :=
  .record [
    ("firstIndex", encUInt a.firstIndex),
    ("numOffsets", encUInt a.numOffsets)]

/-- Modelled from the spec: reads a DynamicBufferInfo record; a missing or malformed child
gives the member its default (§4.2). -/
def decDynamicBufferInfo (n : Option Node) : DynamicBufferInfo where
  firstIndex := decWith asUInt? 0 (Node.child "firstIndex" n)
  numOffsets := decWith asUInt? 0 (Node.child "numOffsets" n)

/-- Modelled from the spec: a PushInfo record as a named-record node, one named child
per member (§4.2). -/
def encPushInfo (a : PushInfo) : Node :=
  .record [
    ("pushableAddresses", encList encStatelessPushInfo a.pushableAddresses),
    ("bindlessPushInfo", encList encUInt a.bindlessPushInfo),
    ("dynamicBufferInfo", encDynamicBufferInfo a.dynamicBufferInfo),
    ("MaxNumberOfPushedBuffers", encUInt a.MaxNumberOfPushedBuffers),
    ("inlineConstantBufferSlot", encUInt a.inlineConstantBufferSlot),
    ("inlineConstantBufferOffset", encUInt a.inlineConstantBufferOffset),
    ("inlineConstantBufferGRFOffset", encUInt a.inlineConstantBufferGRFOffset),
    ("constants", encStdMap encConstantAddress encInt a.constants),
    ("inputs", encStdMap encUInt encSInputDesc a.inputs),
    ("constantReg", encStdMap encUInt encInt a.constantReg),
    ("simplePushInfoArr", encArray encSimplePushInfo a.simplePushInfoArr),
    ("simplePushBufferUsed", encUInt a.simplePushBufferUsed),
    ("pushAnalysisWIInfos", encList encArgDependencyInfoMD a.pushAnalysisWIInfos),
    ("inlineRTGlobalPtrOffset", encUInt a.inlineRTGlobalPtrOffset),
    ("rtSyncSurfPtrOffset", encUInt a.rtSyncSurfPtrOffset)]

/-- Modelled from the spec: reads a PushInfo record; a missing or malformed child
gives the member its default (§4.2). -/
def decPushInfo (n : Option Node) : PushInfo where
  pushableAddresses := decList decStatelessPushInfo (Node.child "pushableAddresses" n)
  bindlessPushInfo := decList (decWith asUInt? 0) (Node.child "bindlessPushInfo" n)
  dynamicBufferInfo := decDynamicBufferInfo (Node.child "dynamicBufferInfo" n)
  MaxNumberOfPushedBuffers := decWith asUInt? 0 (Node.child "MaxNumberOfPushedBuffers" n)
  inlineConstantBufferSlot := decWith asUInt? INVALID_CONSTANT_BUFFER_INVALID_ADDR (Node.child "inlineConstantBufferSlot" n)
  inlineConstantBufferOffset := decWith asUInt? INVALID_CONSTANT_BUFFER_INVALID_ADDR (Node.child "inlineConstantBufferOffset" n)
  inlineConstantBufferGRFOffset := decWith asUInt? INVALID_CONSTANT_BUFFER_INVALID_ADDR (Node.child "inlineConstantBufferGRFOffset" n)
  constants := decStdMap (asRecord? decConstantAddress) (decWith asInt? 0) (Node.child "constants" n)
  inputs := decStdMap asUInt? decSInputDesc (Node.child "inputs" n)
  constantReg := decStdMap asUInt? (decWith asInt? 0) (Node.child "constantReg" n)
  simplePushInfoArr := decArray g_c_maxNumberOfBufferPushed decSimplePushInfo (Node.child "simplePushInfoArr" n)
  simplePushBufferUsed := decWith asUInt? 0 (Node.child "simplePushBufferUsed" n)
  pushAnalysisWIInfos := decList decArgDependencyInfoMD (Node.child "pushAnalysisWIInfos" n)
  inlineRTGlobalPtrOffset := decWith asUInt? 0 (Node.child "inlineRTGlobalPtrOffset" n)
  rtSyncSurfPtrOffset := decWith asUInt? 0 (Node.child "rtSyncSurfPtrOffset" n)

/-- Modelled from the spec: a InlineProgramScopeBuffer record as a named-record node, one named child
per member (§4.2). -/
def encInlineProgramScopeBuffer (a : InlineProgramScopeBuffer) : Node :=
  .record [
    ("alignment", encInt a.alignment),
    ("allocSize", encUInt a.allocSize),
    ("Buffer", encList encUInt a.Buffer)]

/-- Modelled from the spec: reads a InlineProgramScopeBuffer record; a missing or malformed child
gives the member its default, or the value-initialised zero where the header declares none (§4.2). -/
def decInlineProgramScopeBuffer (n : Option Node) : InlineProgramScopeBuffer where
  alignment := decWith asInt? 0 (Node.child "alignment" n)
  allocSize := decWith asUInt? 0 (Node.child "allocSize" n)
  Buffer := decList (decWith asUInt? 0) (Node.child "Buffer" n)

/-- Modelled from the spec: a ImmConstantInfo record as a named-record node, one named child
per member (§4.2). -/
def encImmConstantInfo (a : ImmConstantInfo) : Node :=
  .record [
    ("data", encList encInt a.data)]

/-- Modelled from the spec: reads a ImmConstantInfo record; a missing or malformed child
gives the member its default (§4.2). -/
def decImmConstantInfo (n : Option Node) : ImmConstantInfo where
  data := decList (decWith asInt? 0) (Node.child "data" n)

/-- Modelled from the spec: a PointerProgramBinaryInfo record as a named-record node, one named child
per member (§4.2). -/
def encPointerProgramBinaryInfo (a : PointerProgramBinaryInfo) : Node :=
  .record [
    ("PointerBufferIndex", encInt a.PointerBufferIndex),
    ("PointerOffset", encInt a.PointerOffset),
    ("PointeeAddressSpace", encInt a.PointeeAddressSpace),
    ("PointeeBufferIndex", encInt a.PointeeBufferIndex)]

/-- Modelled from the spec: reads a PointerProgramBinaryInfo record; a missing or malformed child
gives the member its default, or the value-initialised zero where the header declares none (§4.2). -/
def decPointerProgramBinaryInfo (n : Option Node) : PointerProgramBinaryInfo where
  PointerBufferIndex := decWith asInt? 0 (Node.child "PointerBufferIndex" n)
  PointerOffset := decWith asInt? 0 (Node.child "PointerOffset" n)
  PointeeAddressSpace := decWith asInt? 0 (Node.child "PointeeAddressSpace" n)
  PointeeBufferIndex := decWith asInt? 0 (Node.child "PointeeBufferIndex" n)

/-- Modelled from the spec: a PointerAddressRelocInfo record as a named-record node, one named child
per member (§4.2). -/
def encPointerAddressRelocInfo (a : PointerAddressRelocInfo) : Node :=
  .record [
    ("BufferOffset", encUInt a.BufferOffset),
    ("PointerSize", encUInt a.PointerSize),
    ("Symbol", encString a.Symbol)]

/-- Modelled from the spec: reads a PointerAddressRelocInfo record; a missing or malformed child
gives the member its default, or the value-initialised zero where the header declares none (§4.2). -/
def decPointerAddressRelocInfo (n : Option Node) : PointerAddressRelocInfo where
  BufferOffset := decWith asUInt? 0 (Node.child "BufferOffset" n)
  PointerSize := decWith asUInt? 0 (Node.child "PointerSize" n)
  Symbol := decWith asString? "" (Node.child "Symbol" n)

/-- Modelled from the spec: a ShaderData record as a named-record node, one named child
per member (§4.2). -/
def encShaderData (a : ShaderData) : Node :=
  .record [
    ("numReplicas", encUInt a.numReplicas)]

/-- Modelled from the spec: reads a ShaderData record; a missing or malformed child
gives the member its default (§4.2). -/
def decShaderData (n : Option Node) : ShaderData where
  numReplicas := decWith asUInt? 0 (Node.child "numReplicas" n)

/-- Modelled from the spec: a SrvMapData record as a named-record node, one named child
per member (§4.2). -/
def encSrvMapData (a : SrvMapData) : Node :=
  .record [
    ("resourceRangeID", encUInt a.resourceRangeID),
    ("indexIntoRange", encUInt a.indexIntoRange),
    ("hfCandidate", encBool a.hfCandidate),
    ("runtimeValue", encUInt a.runtimeValue),
    ("ptrAddressSpace", encUInt a.ptrAddressSpace)]

/-- Modelled from the spec: reads a SrvMapData record; a missing or malformed child
gives the member its default, or the value-initialised zero where the header declares none (§4.2). -/
def decSrvMapData (n : Option Node) : SrvMapData where
  resourceRangeID := decWith asUInt? 0 (Node.child "resourceRangeID" n)
  indexIntoRange := decWith asUInt? 0 (Node.child "indexIntoRange" n)
  hfCandidate := decWith asBool? false (Node.child "hfCandidate" n)
  runtimeValue := decWith asUInt? 0 (Node.child "runtimeValue" n)
  ptrAddressSpace := decWith asUInt? 0 (Node.child "ptrAddressSpace" n)

/-- Modelled from the spec: a URBLayoutInfo record as a named-record node, one named child
per member (§4.2). -/
def encURBLayoutInfo (a : URBLayoutInfo) : Node :=
  .record [
    ("has64BVertexHeaderInput", encBool a.has64BVertexHeaderInput),
    ("has64BVertexHeaderOutput", encBool a.has64BVertexHeaderOutput),
    ("hasVertexHeader", encBool a.hasVertexHeader)]

/-- Modelled from the spec: reads a URBLayoutInfo record; a missing or malformed child
gives the member its default (§4.2). -/
def decURBLayoutInfo (n : Option Node) : URBLayoutInfo where
  has64BVertexHeaderInput := decWith asBool? false (Node.child "has64BVertexHeaderInput" n)
  has64BVertexHeaderOutput := decWith asBool? false (Node.child "has64BVertexHeaderOutput" n)
  hasVertexHeader := decWith asBool? true (Node.child "hasVertexHeader" n)

/-- Modelled from the spec: a SPIRVCapabilities record as a named-record node, one named child
per member (§4.2). -/
def encSPIRVCapabilities (a : SPIRVCapabilities) : Node :=
  .record [
    ("globalVariableDecorationsINTEL", encBool a.globalVariableDecorationsINTEL)]

/-- Modelled from the spec: reads a SPIRVCapabilities record; a missing or malformed child
gives the member its default (§4.2). -/
def decSPIRVCapabilities (n : Option Node) : SPIRVCapabilities where
  globalVariableDecorationsINTEL := decWith asBool? false (Node.child "globalVariableDecorationsINTEL" n)

/-- Modelled from the spec: a ModuleMetaData record as a named-record node, one named child
per member (§4.2). -/
def encModuleMetaData {inc : Includes} (a : ModuleMetaData inc) : Node :=
  .record [
    ("isPrecise", encBool a.isPrecise),
    ("compOpt", encCompOptions a.compOpt),
    ("FuncMD", encMapVector encPtr encFunctionMetaData a.FuncMD),
    ("pushInfo", encPushInfo a.pushInfo),
    ("psInfo", encPixelShaderInfo a.psInfo),
    ("csInfo", encComputeShaderInfo a.csInfo),
    ("msInfo", encMeshShaderInfo a.msInfo),
    ("taskInfo", encTaskShaderInfo a.taskInfo),
    ("NBarrierCnt", encUInt a.NBarrierCnt),
    ("rtInfo", encRayTraceModuleInfo a.rtInfo),
    ("CurUniqueIndirectIdx", encUInt a.CurUniqueIndirectIdx),
    ("inlineDynTextures", encStdMap encUInt (encArray encUInt) a.inlineDynTextures),
    ("inlineResInfoData", encList encInlineResInfo a.inlineResInfoData),
    ("immConstant", encImmConstantInfo a.immConstant),
    ("inlineConstantBuffers", encList encInlineProgramScopeBuffer a.inlineConstantBuffers),
    ("inlineGlobalBuffers", encList encInlineProgramScopeBuffer a.inlineGlobalBuffers),
    ("GlobalPointerProgramBinaryInfos", encList encPointerProgramBinaryInfo a.GlobalPointerProgramBinaryInfos),
    ("ConstantPointerProgramBinaryInfos", encList encPointerProgramBinaryInfo a.ConstantPointerProgramBinaryInfos),
    ("GlobalBufferAddressRelocInfo", encList encPointerAddressRelocInfo a.GlobalBufferAddressRelocInfo),
    ("ConstantBufferAddressRelocInfo", encList encPointerAddressRelocInfo a.ConstantBufferAddressRelocInfo),
    ("forceLscCacheList", encStdMap encUInt encUInt a.forceLscCacheList),
    ("SrvMap", encList encSrvMapData a.SrvMap),
    ("RasterizerOrderedByteAddressBuffer", encList encUInt a.RasterizerOrderedByteAddressBuffer),
    ("MinNOSPushConstantSize", encUInt a.MinNOSPushConstantSize),
    ("inlineProgramScopeOffsets", encMapVector encPtr encInt a.inlineProgramScopeOffsets),
    ("shaderData", encShaderData a.shaderData),
    ("URBInfo", encURBLayoutInfo a.URBInfo),
    ("UseBindlessImage", encBool a.UseBindlessImage),
    ("enableRangeReduce", encBool a.enableRangeReduce),
    ("allowMatchMadOptimizationforVS", encBool a.allowMatchMadOptimizationforVS),
    ("disableMemOptforNegativeOffsetLoads", encBool a.disableMemOptforNegativeOffsetLoads),
    ("statefulResourcesNotAliased", encBool a.statefulResourcesNotAliased),
    ("disableMixMode", encBool a.disableMixMode),
    ("privateMemoryPerWI", encUInt a.privateMemoryPerWI),
    ("PrivateMemoryPerFG", encStdMap encPtr encUInt a.PrivateMemoryPerFG),
    ("capabilities", encSPIRVCapabilities a.capabilities),
    ("m_ShaderResourceViewMcsMask", encArray encUInt a.m_ShaderResourceViewMcsMask),
    ("computedDepthMode", encUInt a.computedDepthMode),
    ("isHDCFastClearShader", encBool a.isHDCFastClearShader)]

/-- Modelled from the spec: reads a ModuleMetaData record; a missing or malformed child
gives the member its default (§4.2). -/
def decModuleMetaData (inc : Includes) (functions : List Nat) (n : Option Node) : ModuleMetaData inc where
  isPrecise := decWith asBool? false (Node.child "isPrecise" n)
  compOpt := decCompOptions inc (Node.child "compOpt" n)
  FuncMD := decFuncMD functions (decFunctionMetaData inc) (Node.child "FuncMD" n)
  pushInfo := decPushInfo (Node.child "pushInfo" n)
  psInfo := decPixelShaderInfo (Node.child "psInfo" n)
  csInfo := decComputeShaderInfo (Node.child "csInfo" n)
  msInfo := decMeshShaderInfo (Node.child "msInfo" n)
  taskInfo := decTaskShaderInfo (Node.child "taskInfo" n)
  NBarrierCnt := decWith asUInt? 0 (Node.child "NBarrierCnt" n)
  rtInfo := decRayTraceModuleInfo (Node.child "rtInfo" n)
  CurUniqueIndirectIdx := decWith asUInt? DefaultIndirectIdx (Node.child "CurUniqueIndirectIdx" n)
  inlineDynTextures := decStdMap asUInt? (decArray 4 (decWith asUInt? 0)) (Node.child "inlineDynTextures" n)
  inlineResInfoData := decList decInlineResInfo (Node.child "inlineResInfoData" n)
  immConstant := decImmConstantInfo (Node.child "immConstant" n)
  inlineConstantBuffers := decList decInlineProgramScopeBuffer (Node.child "inlineConstantBuffers" n)
  inlineGlobalBuffers := decList decInlineProgramScopeBuffer (Node.child "inlineGlobalBuffers" n)
  GlobalPointerProgramBinaryInfos := decList decPointerProgramBinaryInfo (Node.child "GlobalPointerProgramBinaryInfos" n)
  ConstantPointerProgramBinaryInfos := decList decPointerProgramBinaryInfo (Node.child "ConstantPointerProgramBinaryInfos" n)
  GlobalBufferAddressRelocInfo := decList decPointerAddressRelocInfo (Node.child "GlobalBufferAddressRelocInfo" n)
  ConstantBufferAddressRelocInfo := decList decPointerAddressRelocInfo (Node.child "ConstantBufferAddressRelocInfo" n)
  forceLscCacheList := decStdMap asUInt? (decWith asUInt? 0) (Node.child "forceLscCacheList" n)
  SrvMap := decList decSrvMapData (Node.child "SrvMap" n)
  RasterizerOrderedByteAddressBuffer := decList (decWith asUInt? 0) (Node.child "RasterizerOrderedByteAddressBuffer" n)
  MinNOSPushConstantSize := decWith asUInt? 0 (Node.child "MinNOSPushConstantSize" n)
  inlineProgramScopeOffsets := decMapVector asUInt? (decWith asInt? 0) (Node.child "inlineProgramScopeOffsets" n)
  shaderData := decShaderData (Node.child "shaderData" n)
  URBInfo := decURBLayoutInfo (Node.child "URBInfo" n)
  UseBindlessImage := decWith asBool? false (Node.child "UseBindlessImage" n)
  enableRangeReduce := decWith asBool? false (Node.child "enableRangeReduce" n)
  allowMatchMadOptimizationforVS := decWith asBool? false (Node.child "allowMatchMadOptimizationforVS" n)
  disableMemOptforNegativeOffsetLoads := decWith asBool? false (Node.child "disableMemOptforNegativeOffsetLoads" n)
  statefulResourcesNotAliased := decWith asBool? false (Node.child "statefulResourcesNotAliased" n)
  disableMixMode := decWith asBool? false (Node.child "disableMixMode" n)
  privateMemoryPerWI := decWith asUInt? 0 (Node.child "privateMemoryPerWI" n)
  PrivateMemoryPerFG := decStdMap asUInt? (decWith asUInt? 0) (Node.child "PrivateMemoryPerFG" n)
  capabilities := decSPIRVCapabilities (Node.child "capabilities" n)
  m_ShaderResourceViewMcsMask := decArray NUM_SHADER_RESOURCE_VIEW_SIZE (decWith asUInt? 0) (Node.child "m_ShaderResourceViewMcsMask" n)
  computedDepthMode := decWith asUInt? 0 (Node.child "computedDepthMode" n)
  isHDCFastClearShader := decWith asBool? false (Node.child "isHDCFastClearShader" n)

/-! ## The module codec and the derived-fact queries -/

def NAMED_METADATA_COARSE_PHASE : String := "coarse_phase"
def NAMED_METADATA_PIXEL_PHASE : String := "pixel_phase"

/-- Modelled from the spec: what the codec sees of an IR module (llvm::Module
is only forward-declared in the header): the functions the module currently
holds, as handles, and the named node-tree roots attached to it (§4.3, §6). -/
structure Module where
  functions : List Nat
  namedMetadata : List (String × Node)

/-- Modelled from the spec: the reserved root name under which the module
codec attaches the metadata tree (§4.3 "a well-known set of named node-tree
roots"). The spec does not spell the name out; the codec only relies on it
being one fixed name. -/
def moduleMetadataRoot : String := "IGCMetadata"

/-- Modelled from the spec: "always clearing the previously attached root(s)
before writing" (§4.3). -/
def clearRoot (name : String) (roots : List (String × Node)) : List (String × Node) :=
  roots.filter (fun r => decide (r.1 ≠ name))

/-- Modelled from the spec: `serialize(metadata, module)` (§4.3), declared in
MDFrameWork.h; its definition is not at hand. The previously
attached root is cleared, then the tree of `moduleMD` is attached; the record
of every function keyed in FuncMD travels in that tree, paired with the
handle of its function (§4.2: a function map encodes as a list of key/value
pairs in insertion order). The module's functions are left untouched. -/
def serialize {inc : Includes} (moduleMD : ModuleMetaData inc) (irModule : Module) : Module :=
  { irModule with
    namedMetadata :=
      clearRoot moduleMetadataRoot irModule.namedMetadata ++
        [(moduleMetadataRoot, encModuleMetaData moduleMD)] }

/-- Modelled from the spec: `deserialize(module) -> metadata` (§4.4), declared
in MDFrameWork.h (there with the result as an out-parameter); its definition
is not at hand. The result is built afresh from the attached
tree: module-level facts decode unconditionally, with defaults for anything
missing, and a function's record is kept only when the function is still
present in the module. -/
def deserialize (inc : Includes) (irModule : Module) : ModuleMetaData inc :=
  decModuleMetaData inc irModule.functions (irModule.namedMetadata.lookup moduleMetadataRoot)

/-- Modelled from the spec: the query `isContinuation`, declared in
MDFrameWork.h; its definition is not at hand: "continuation-ness is
exactly the `isContinuation` flag in the embedded raytracing info" (§4.5). -/
def isContinuation {inc : Includes} (funcMD : FunctionMetaData inc) : Bool :=
  funcMD.rtInfo.isContinuation

/-! ## The declarations of the header, as data -/

/-- How a data member of a schema record is typed, as far as default
construction goes: a scalar (arithmetic, enumeration or pointer type) is left
indeterminate unless it has an initialiser; a standard class type (string,
vector, map, MapVector, optional) constructs itself empty, whatever record
types its elements have; a nested record and a std::array are as good as
their members. -/
inductive MemberType where
  | scalar (cType : String)
  | classType (cType : String) (elementRecords : List String)
  | record (name : String)
  | array (cType : String) (size : Nat) (element : MemberType)

/-- One data member declaration: name, type and default member initialiser,
the latter as written in the header. -/
structure MemberDecl where
  name : String
  type : MemberType
  init : Option String

structure RecordDecl where
  name : String
  members : List MemberDecl

/-- The records that MDFrameWork.h declares for ModuleMetaData, for
FunctionMetaData and for the record types nested in them, member by member
in declaration order. -/
def schema : List RecordDecl := [
  ⟨"InlineResInfo", [
    ⟨"textureID", .scalar "unsigned int", (some "0")⟩,
    ⟨"SurfaceType", .scalar "unsigned int", (some "0x7")⟩,
    ⟨"WidthOrBufferSize", .scalar "unsigned int", (some "0")⟩,
    ⟨"Height", .scalar "unsigned int", (some "0")⟩,
    ⟨"Depth", .scalar "unsigned int", (some "0")⟩,
    ⟨"SurfaceArray", .scalar "unsigned int", (some "0")⟩,
    ⟨"QWidth", .scalar "unsigned int", (some "0")⟩,
    ⟨"QHeight", .scalar "unsigned int", (some "0")⟩,
    ⟨"MipCount", .scalar "unsigned int", (some "0")⟩]⟩,
  ⟨"ArgDependencyInfoMD", [
    ⟨"argDependency", .scalar "int", (some "0")⟩]⟩,
  ⟨"ArgAllocMD", [
    ⟨"type", .scalar "int", (some "-1")⟩,
    ⟨"extensionType", .scalar "int", (some "-1")⟩,
    ⟨"indexType", .scalar "int", (some "-1")⟩]⟩,
  ⟨"InlineSamplersMD", [
    ⟨"m_Value", .scalar "int", (some "0")⟩,
    ⟨"addressMode", .scalar "int", (some "0")⟩,
    ⟨"index", .scalar "int", (some "0")⟩,
    ⟨"TCXAddressMode", .scalar "int", (some "0")⟩,
    ⟨"TCYAddressMode", .scalar "int", (some "0")⟩,
    ⟨"TCZAddressMode", .scalar "int", (some "0")⟩,
    ⟨"MagFilterType", .scalar "int", (some "0")⟩,
    ⟨"MinFilterType", .scalar "int", (some "0")⟩,
    ⟨"MipFilterType", .scalar "int", (some "0")⟩,
    ⟨"CompareFunc", .scalar "int", (some "0")⟩,
    ⟨"NormalizedCoords", .scalar "int", (some "0")⟩,
    ⟨"BorderColorR", .scalar "float", (some "0.0f")⟩,
    ⟨"BorderColorG", .scalar "float", (some "0.0f")⟩,
    ⟨"BorderColorB", .scalar "float", (some "0.0f")⟩,
    ⟨"BorderColorA", .scalar "float", (some "0.0f")⟩]⟩,
  ⟨"ResourceAllocMD", [
    ⟨"uavsNumType", .scalar "int", (some "0")⟩,
    ⟨"srvsNumType", .scalar "int", (some "0")⟩,
    ⟨"samplersNumType", .scalar "int", (some "0")⟩,
    ⟨"argAllocMDList", .classType "std::vector<ArgAllocMD>" ["ArgAllocMD"], none⟩,
    ⟨"inlineSamplersMD", .classType "std::vector<InlineSamplersMD>" ["InlineSamplersMD"], none⟩]⟩,
  ⟨"ComputeShaderSecondCompileInputInfoMD", [
    ⟨"runtimeVal_ResWidthHeight", .scalar "int", (some "0")⟩,
    ⟨"runtimeVal_LoopCount", .scalar "int", (some "0")⟩,
    ⟨"runtimeVal_ConstantBufferSize", .scalar "int", (some "0")⟩,
    ⟨"isSecondCompile", .scalar "bool", (some "false")⟩,
    ⟨"isRowMajor", .scalar "int", (some "0")⟩,
    ⟨"numChannelsUsed", .scalar "int", (some "0")⟩]⟩,
  ⟨"LocalOffsetMD", [
    ⟨"m_Offset", .scalar "int", none⟩,
    ⟨"m_Var", .scalar "llvm::GlobalVariable*", none⟩]⟩,
  ⟨"WorkGroupWalkOrderMD", [
    ⟨"dim0", .scalar "int", (some "0")⟩,
    ⟨"dim1", .scalar "int", (some "0")⟩,
    ⟨"dim2", .scalar "int", (some "0")⟩]⟩,
  ⟨"FuncArgMD", [
    ⟨"bufferLocationIndex", .scalar "int", (some "-1")⟩,
    ⟨"bufferLocationCount", .scalar "int", (some "-1")⟩,
    ⟨"isEmulationArg", .scalar "bool", (some "0")⟩]⟩,
  ⟨"StackFrameEntry", [
    ⟨"Name", .classType "std::string" [], none⟩,
    ⟨"TypeRepr", .classType "std::string" [], none⟩,
    ⟨"EntryType", .scalar "StackEntryType", (some "ENTRY_UNKNOWN")⟩,
    ⟨"Size", .scalar "uint32_t", (some "0")⟩,
    ⟨"Offset", .scalar "uint32_t", (some "0")⟩]⟩,
  ⟨"StackFrameSpillUnion", [
    ⟨"ContinuationName", .classType "std::string" [], none⟩,
    ⟨"Entries", .classType "std::vector<StackFrameEntry>" ["StackFrameEntry"], none⟩]⟩,
  ⟨"RayTracingSWTypes", [
    ⟨"FrameStartTys", .classType "std::vector<llvm::StructType*>" [], none⟩,
    ⟨"ArgumentTys", .classType "std::vector<llvm::StructType*>" [], none⟩,
    ⟨"FullFrameTys", .classType "std::vector<llvm::StructType*>" [], none⟩]⟩,
  ⟨"RayTraceModuleInfo", [
    ⟨"RayQueryAllocSizeInBytes", .scalar "uint32_t", (some "0")⟩,
    ⟨"NumContinuations", .scalar "uint32_t", (some "UINT_MAX")⟩,
    ⟨"RTAsyncStackAddrspace", .scalar "uint32_t", (some "UINT_MAX")⟩,
    ⟨"RTAsyncStackSurfaceStateOffset", .classType "std::optional<uint32_t>" [], none⟩,
    ⟨"SWHotZoneAddrspace", .scalar "uint32_t", (some "UINT_MAX")⟩,
    ⟨"SWHotZoneSurfaceStateOffset", .classType "std::optional<uint32_t>" [], none⟩,
    ⟨"SWStackAddrspace", .scalar "uint32_t", (some "UINT_MAX")⟩,
    ⟨"SWStackSurfaceStateOffset", .classType "std::optional<uint32_t>" [], none⟩,
    ⟨"RTSyncStackAddrspace", .scalar "uint32_t", (some "UINT_MAX")⟩,
    ⟨"RTSyncStackSurfaceStateOffset", .classType "std::optional<uint32_t>" [], none⟩]⟩,
  ⟨"RayTraceShaderInfo", [
    ⟨"callableShaderType", .scalar "CallableShaderTypeMD", (some "NumberOfCallableShaderTypes")⟩,
    ⟨"isContinuation", .scalar "bool", (some "false")⟩,
    ⟨"hasTraceRayPayload", .scalar "bool", (some "false")⟩,
    ⟨"hasHitAttributes", .scalar "bool", (some "false")⟩,
    ⟨"hasCallableData", .scalar "bool", (some "false")⟩,
    ⟨"ShaderStackSize", .scalar "uint32_t", (some "0")⟩,
    ⟨"ShaderHash", .scalar "uint64_t", (some "0")⟩,
    ⟨"ShaderName", .classType "std::string" [], none⟩,
    ⟨"ParentName", .classType "std::string" [], none⟩,
    ⟨"SlotNum", .classType "std::optional<uint32_t>" [], none⟩,
    ⟨"NOSSize", .scalar "uint32_t", (some "0")⟩,
    ⟨"Entries", .classType "std::vector<StackFrameEntry>" ["StackFrameEntry"], none⟩,
    ⟨"SpillUnions", .classType "std::vector<StackFrameSpillUnion>" ["StackFrameSpillUnion"], none⟩,
    ⟨"CustomHitAttrSizeInBytes", .scalar "uint32_t", (some "0")⟩,
    ⟨"Types", .record "RayTracingSWTypes", none⟩,
    ⟨"Aliases", .classType "std::vector<std::string>" [], none⟩]⟩,
  ⟨"ConstantAddress", [
    ⟨"bufId", .scalar "unsigned int", (some "0")⟩,
    ⟨"eltId", .scalar "unsigned int", (some "0")⟩,
    ⟨"size", .scalar "unsigned int", (some "0")⟩]⟩,
  ⟨"FunctionMetaData", [
    ⟨"localOffsets", .classType "std::vector<LocalOffsetMD>" ["LocalOffsetMD"], none⟩,
    ⟨"workGroupWalkOrder", .record "WorkGroupWalkOrderMD", none⟩,
    ⟨"funcArgs", .classType "std::vector<FuncArgMD>" ["FuncArgMD"], none⟩,
    ⟨"functionType", .scalar "FunctionTypeMD", (some "KernelFunction")⟩,
    ⟨"rtInfo", .record "RayTraceShaderInfo", none⟩,
    ⟨"resAllocMD", .record "ResourceAllocMD", none⟩,
    ⟨"maxByteOffsets", .classType "std::vector<unsigned>" [], none⟩,
    ⟨"IsInitializer", .scalar "bool", (some "false")⟩,
    ⟨"IsFinalizer", .scalar "bool", (some "false")⟩,
    ⟨"CompiledSubGroupsNumber", .scalar "unsigned", (some "0")⟩,
    ⟨"hasInlineVmeSamplers", .scalar "bool", (some "false")⟩,
    ⟨"localSize", .scalar "int", (some "0")⟩,
    ⟨"localIDPresent", .scalar "bool", (some "false")⟩,
    ⟨"groupIDPresent", .scalar "bool", (some "false")⟩,
    ⟨"privateMemoryPerWI", .scalar "int", (some "0")⟩,
    ⟨"globalIDPresent", .scalar "bool", (some "false")⟩,
    ⟨"hasSyncRTCalls", .scalar "bool", (some "false")⟩,
    ⟨"hasNonKernelArgLoad", .scalar "bool", (some "false")⟩,
    ⟨"hasNonKernelArgStore", .scalar "bool", (some "false")⟩,
    ⟨"hasNonKernelArgAtomic", .scalar "bool", (some "false")⟩,
    ⟨"UserAnnotations", .classType "std::vector<std::string>" [], none⟩,
    ⟨"m_OpenCLArgAddressSpaces", .classType "std::vector<int32_t>" [], none⟩,
    ⟨"m_OpenCLArgAccessQualifiers", .classType "std::vector<std::string>" [], none⟩,
    ⟨"m_OpenCLArgTypes", .classType "std::vector<std::string>" [], none⟩,
    ⟨"m_OpenCLArgBaseTypes", .classType "std::vector<std::string>" [], none⟩,
    ⟨"m_OpenCLArgTypeQualifiers", .classType "std::vector<std::string>" [], none⟩,
    ⟨"m_OpenCLArgNames", .classType "std::vector<std::string>" [], none⟩]⟩,
  ⟨"CompOptions", [
    ⟨"DenormsAreZero", .scalar "bool", (some "false")⟩,
    ⟨"CorrectlyRoundedDivSqrt", .scalar "bool", (some "false")⟩,
    ⟨"OptDisable", .scalar "bool", (some "false")⟩,
    ⟨"MadEnable", .scalar "bool", (some "false")⟩,
    ⟨"NoSignedZeros", .scalar "bool", (some "false")⟩,
    ⟨"NoNaNs", .scalar "bool", (some "false")⟩,
    ⟨"FloatRoundingMode", .scalar "unsigned", (some "IGC::ROUND_TO_NEAREST_EVEN")⟩,
    ⟨"FloatCvtIntRoundingMode", .scalar "unsigned", (some "IGC::ROUND_TO_ZERO")⟩,
    ⟨"VISAPreSchedRPThreshold", .scalar "unsigned", (some "0")⟩,
    ⟨"SetLoopUnrollThreshold", .scalar "unsigned", (some "0")⟩,
    ⟨"UnsafeMathOptimizations", .scalar "bool", (some "false")⟩,
    ⟨"FiniteMathOnly", .scalar "bool", (some "false")⟩,
    ⟨"FastRelaxedMath", .scalar "bool", (some "false")⟩,
    ⟨"DashGSpecified", .scalar "bool", (some "false")⟩,
    ⟨"FastCompilation", .scalar "bool", (some "false")⟩,
    ⟨"UseScratchSpacePrivateMemory", .scalar "bool", (some "true")⟩,
    ⟨"RelaxedBuiltins", .scalar "bool", (some "false")⟩,
    ⟨"SubgroupIndependentForwardProgressRequired", .scalar "bool", (some "true")⟩,
    ⟨"GreaterThan2GBBufferRequired", .scalar "bool", (some "true")⟩,
    ⟨"GreaterThan4GBBufferRequired", .scalar "bool", (some "true")⟩,
    ⟨"DisableA64WA", .scalar "bool", (some "false")⟩,
    ⟨"ForceEnableA64WA", .scalar "bool", (some "false")⟩,
    ⟨"PushConstantsEnable", .scalar "bool", (some "true")⟩,
    ⟨"HasPositivePointerOffset", .scalar "bool", (some "false")⟩,
    ⟨"HasBufferOffsetArg", .scalar "bool", (some "false")⟩,
    ⟨"BufferOffsetArgOptional", .scalar "bool", (some "true")⟩,
    ⟨"HasSubDWAlignedPtrArg", .scalar "bool", (some "false")⟩,
    ⟨"replaceGlobalOffsetsByZero", .scalar "bool", (some "false")⟩,
    ⟨"forcePixelShaderSIMDMode", .scalar "unsigned", (some "0")⟩,
    ⟨"pixelShaderDoNotAbortOnSpill", .scalar "bool", (some "false")⟩,
    ⟨"UniformWGS", .scalar "bool", (some "false")⟩,
    ⟨"disableVertexComponentPacking", .scalar "bool", (some "false")⟩,
    ⟨"disablePartialVertexComponentPacking", .scalar "bool", (some "false")⟩,
    ⟨"PreferBindlessImages", .scalar "bool", (some "false")⟩,
    ⟨"UseBindlessMode", .scalar "bool", (some "false")⟩,
    ⟨"UseLegacyBindlessMode", .scalar "bool", (some "true")⟩,
    ⟨"disableMathRefactoring", .scalar "bool", (some "false")⟩,
    ⟨"atomicBranch", .scalar "bool", (some "false")⟩,
    ⟨"ForceMinSimdSizeForFastestCS", .scalar "bool", (some "false")⟩,
    ⟨"EnableFastestLinearScan", .scalar "bool", (some "false")⟩,
    ⟨"UseStatelessforPrivateMemory", .scalar "bool", (some "false")⟩,
    ⟨"EnableTakeGlobalAddress", .scalar "bool", (some "false")⟩,
    ⟨"IsLibraryCompilation", .scalar "bool", (some "false")⟩,
    ⟨"FastVISACompile", .scalar "bool", (some "false")⟩,
    ⟨"MatchSinCosPi", .scalar "bool", (some "false")⟩,
    ⟨"CaptureCompilerStats", .scalar "bool", (some "false")⟩,
    ⟨"EnableZEBinary", .scalar "bool", (some "false")⟩,
    ⟨"ExcludeIRFromZEBinary", .scalar "bool", (some "false")⟩,
    ⟨"allowDisableRematforCS", .scalar "bool", (some "false")⟩,
    ⟨"DisableIncSpillCostAllAddrTaken", .scalar "bool", (some "false")⟩,
    ⟨"DisableCPSOmaskWA", .scalar "bool", (some "false")⟩,
    ⟨"WaForceHalfPromotion", .scalar "bool", (some "false")⟩]⟩,
  ⟨"ComputeShaderInfo", [
    ⟨"maxWorkGroupSize", .scalar "unsigned int", (some "0")⟩,
    ⟨"waveSize", .scalar "unsigned int", (some "0")⟩,
    ⟨"ComputeShaderSecondCompile", .classType "std::vector<ComputeShaderSecondCompileInputInfoMD>" ["ComputeShaderSecondCompileInputInfoMD"], none⟩,
    ⟨"forcedSIMDSize", .scalar "unsigned char", (some "0")⟩,
    ⟨"forceTotalGRFNum", .scalar "unsigned int", (some "0")⟩,
    ⟨"VISAPreSchedRPThreshold", .scalar "unsigned int", (some "0")⟩,
    ⟨"SetLoopUnrollThreshold", .scalar "unsigned int", (some "0")⟩,
    ⟨"forcedVISAPreRAScheduler", .scalar "bool", (some "false")⟩,
    ⟨"disableLocalIdOrderOptimizations", .scalar "bool", (some "false")⟩,
    ⟨"disableDispatchAlongY", .scalar "bool", (some "false")⟩,
    ⟨"neededThreadIdLayout", .classType "std::optional<ThreadIDLayout>" [], none⟩,
    ⟨"forceTileYWalk", .scalar "bool", (some "false")⟩,
    ⟨"atomicBranch", .scalar "bool", (some "false")⟩,
    ⟨"ResForHfPacking", .classType "std::vector<std::vector<unsigned int>>" [], none⟩]⟩,
  ⟨"PixelShaderInfo", [
    ⟨"BlendStateDisabledMask", .scalar "unsigned char", (some "0")⟩,
    ⟨"SkipSrc0Alpha", .scalar "bool", (some "false")⟩,
    ⟨"DualSourceBlendingDisabled", .scalar "bool", (some "false")⟩,
    ⟨"ForceEnableSimd32", .scalar "bool", (some "false")⟩,
    ⟨"outputDepth", .scalar "bool", (some "false")⟩,
    ⟨"outputStencil", .scalar "bool", (some "false")⟩,
    ⟨"outputMask", .scalar "bool", (some "false")⟩,
    ⟨"blendToFillEnabled", .scalar "bool", (some "false")⟩,
    ⟨"forceEarlyZ", .scalar "bool", (some "false")⟩,
    ⟨"hasVersionedLoop", .scalar "bool", (some "false")⟩,
    ⟨"forceSingleSourceRTWAfterDualSourceRTW", .scalar "bool", (some "false")⟩,
    ⟨"NumSamples", .scalar "unsigned char", (some "0")⟩,
    ⟨"blendOptimizationMode", .classType "std::vector<int>" [], none⟩,
    ⟨"colorOutputMask", .classType "std::vector<int>" [], none⟩]⟩,
  ⟨"MeshShaderInfo", [
    ⟨"PrimitiveTopology", .scalar "unsigned int", (some "3")⟩,
    ⟨"MaxNumOfPrimitives", .scalar "unsigned int", (some "0")⟩,
    ⟨"MaxNumOfVertices", .scalar "unsigned int", (some "0")⟩,
    ⟨"MaxNumOfPerPrimitiveOutputs", .scalar "unsigned int", (some "0")⟩,
    ⟨"MaxNumOfPerVertexOutputs", .scalar "unsigned int", (some "0")⟩,
    ⟨"WorkGroupSize", .scalar "unsigned int", (some "0")⟩,
    ⟨"WorkGroupMemorySizeInBytes", .scalar "unsigned int", (some "0")⟩,
    ⟨"IndexFormat", .scalar "unsigned int", (some "6")⟩,
    ⟨"SubgroupSize", .scalar "unsigned int", (some "0")⟩]⟩,
  ⟨"TaskShaderInfo", [
    ⟨"MaxNumOfOutputs", .scalar "unsigned int", (some "0")⟩,
    ⟨"WorkGroupSize", .scalar "unsigned int", (some "0")⟩,
    ⟨"WorkGroupMemorySizeInBytes", .scalar "unsigned int", (some "0")⟩,
    ⟨"SubgroupSize", .scalar "unsigned int", (some "0")⟩]⟩,
  ⟨"SInputDesc", [
    ⟨"index", .scalar "unsigned int", (some "0")⟩,
    ⟨"argIndex", .scalar "int", (some "0")⟩,
    ⟨"interpolationMode", .scalar "int", (some "0")⟩]⟩,
  ⟨"SimplePushInfo", [
    ⟨"cbIdx", .scalar "unsigned int", (some "0")⟩,
    ⟨"pushableAddressGrfOffset", .scalar "int", (some "-1")⟩,
    ⟨"pushableOffsetGrfOffset", .scalar "int", (some "-1")⟩,
    ⟨"offset", .scalar "unsigned int", (some "0")⟩,
    ⟨"size", .scalar "unsigned int", (some "0")⟩,
    ⟨"isStateless", .scalar "bool", (some "false")⟩,
    ⟨"isBindless", .scalar "bool", (some "false")⟩,
    ⟨"simplePushLoads", .classType "std::map<unsigned int, int>" [], none⟩]⟩,
  ⟨"StatelessPushInfo", [
    ⟨"addressOffset", .scalar "unsigned int", (some "0")⟩,
    ⟨"isStatic", .scalar "bool", (some "false")⟩]⟩,
  ⟨"DynamicBufferInfo", [
    ⟨"firstIndex", .scalar "unsigned int", (some "0")⟩,
    ⟨"numOffsets", .scalar "unsigned int", (some "0")⟩]⟩,
  ⟨"PushInfo", [
    ⟨"pushableAddresses", .classType "std::vector<StatelessPushInfo>" ["StatelessPushInfo"], none⟩,
    ⟨"bindlessPushInfo", .classType "std::vector<unsigned int>" [], none⟩,
    ⟨"dynamicBufferInfo", .record "DynamicBufferInfo", none⟩,
    ⟨"MaxNumberOfPushedBuffers", .scalar "unsigned int", (some "0")⟩,
    ⟨"inlineConstantBufferSlot", .scalar "unsigned int", (some "INVALID_CONSTANT_BUFFER_INVALID_ADDR")⟩,
    ⟨"inlineConstantBufferOffset", .scalar "unsigned int", (some "INVALID_CONSTANT_BUFFER_INVALID_ADDR")⟩,
    ⟨"inlineConstantBufferGRFOffset", .scalar "unsigned int", (some "INVALID_CONSTANT_BUFFER_INVALID_ADDR")⟩,
    ⟨"constants", .classType "std::map<ConstantAddress, int>" ["ConstantAddress"], none⟩,
    ⟨"inputs", .classType "std::map<unsigned int, SInputDesc>" ["SInputDesc"], none⟩,
    ⟨"constantReg", .classType "std::map<unsigned int, int>" [], none⟩,
    ⟨"simplePushInfoArr", .array "std::array<SimplePushInfo, g_c_maxNumberOfBufferPushed>" g_c_maxNumberOfBufferPushed (.record "SimplePushInfo"), none⟩,
    ⟨"simplePushBufferUsed", .scalar "unsigned int", (some "0")⟩,
    ⟨"pushAnalysisWIInfos", .classType "std::vector<ArgDependencyInfoMD>" ["ArgDependencyInfoMD"], none⟩,
    ⟨"inlineRTGlobalPtrOffset", .scalar "unsigned int", (some "0")⟩,
    ⟨"rtSyncSurfPtrOffset", .scalar "unsigned int", (some "0")⟩]⟩,
  ⟨"InlineProgramScopeBuffer", [
    ⟨"alignment", .scalar "int", none⟩,
    ⟨"allocSize", .scalar "unsigned", none⟩,
    ⟨"Buffer", .classType "std::vector<unsigned char>" [], none⟩]⟩,
  ⟨"ImmConstantInfo", [
    ⟨"data", .classType "std::vector<char>" [], none⟩]⟩,
  ⟨"PointerProgramBinaryInfo", [
    ⟨"PointerBufferIndex", .scalar "int", none⟩,
    ⟨"PointerOffset", .scalar "int", none⟩,
    ⟨"PointeeAddressSpace", .scalar "int", none⟩,
    ⟨"PointeeBufferIndex", .scalar "int", none⟩]⟩,
  ⟨"PointerAddressRelocInfo", [
    ⟨"BufferOffset", .scalar "unsigned", none⟩,
    ⟨"PointerSize", .scalar "unsigned", none⟩,
    ⟨"Symbol", .classType "std::string" [], none⟩]⟩,
  ⟨"ShaderData", [
    ⟨"numReplicas", .scalar "unsigned int", (some "0")⟩]⟩,
  ⟨"SrvMapData", [
    ⟨"resourceRangeID", .scalar "unsigned int", none⟩,
    ⟨"indexIntoRange", .scalar "unsigned int", none⟩,
    ⟨"hfCandidate", .scalar "bool", (some "false")⟩,
    ⟨"runtimeValue", .scalar "unsigned int", none⟩,
    ⟨"ptrAddressSpace", .scalar "unsigned int", none⟩]⟩,
  ⟨"URBLayoutInfo", [
    ⟨"has64BVertexHeaderInput", .scalar "bool", (some "false")⟩,
    ⟨"has64BVertexHeaderOutput", .scalar "bool", (some "false")⟩,
    ⟨"hasVertexHeader", .scalar "bool", (some "true")⟩]⟩,
  ⟨"SPIRVCapabilities", [
    ⟨"globalVariableDecorationsINTEL", .scalar "bool", (some "false")⟩]⟩,
  ⟨"ModuleMetaData", [
    ⟨"isPrecise", .scalar "bool", (some "false")⟩,
    ⟨"compOpt", .record "CompOptions", none⟩,
    ⟨"FuncMD", .classType "llvm::MapVector<llvm::Function*, IGC::FunctionMetaData>" ["FunctionMetaData"], none⟩,
    ⟨"pushInfo", .record "PushInfo", none⟩,
    ⟨"psInfo", .record "PixelShaderInfo", none⟩,
    ⟨"csInfo", .record "ComputeShaderInfo", none⟩,
    ⟨"msInfo", .record "MeshShaderInfo", none⟩,
    ⟨"taskInfo", .record "TaskShaderInfo", none⟩,
    ⟨"NBarrierCnt", .scalar "uint32_t", (some "0")⟩,
    ⟨"rtInfo", .record "RayTraceModuleInfo", none⟩,
    ⟨"CurUniqueIndirectIdx", .scalar "uint32_t", (some "DefaultIndirectIdx")⟩,
    ⟨"inlineDynTextures", .classType "std::map<uint32_t, std::array<uint32_t, 4>>" [], none⟩,
    ⟨"inlineResInfoData", .classType "std::vector<InlineResInfo>" ["InlineResInfo"], none⟩,
    ⟨"immConstant", .record "ImmConstantInfo", none⟩,
    ⟨"inlineConstantBuffers", .classType "std::vector<InlineProgramScopeBuffer>" ["InlineProgramScopeBuffer"], none⟩,
    ⟨"inlineGlobalBuffers", .classType "std::vector<InlineProgramScopeBuffer>" ["InlineProgramScopeBuffer"], none⟩,
    ⟨"GlobalPointerProgramBinaryInfos", .classType "std::vector<PointerProgramBinaryInfo>" ["PointerProgramBinaryInfo"], none⟩,
    ⟨"ConstantPointerProgramBinaryInfos", .classType "std::vector<PointerProgramBinaryInfo>" ["PointerProgramBinaryInfo"], none⟩,
    ⟨"GlobalBufferAddressRelocInfo", .classType "std::vector<PointerAddressRelocInfo>" ["PointerAddressRelocInfo"], none⟩,
    ⟨"ConstantBufferAddressRelocInfo", .classType "std::vector<PointerAddressRelocInfo>" ["PointerAddressRelocInfo"], none⟩,
    ⟨"forceLscCacheList", .classType "std::map<uint32_t, uint32_t>" [], none⟩,
    ⟨"SrvMap", .classType "std::vector<SrvMapData>" ["SrvMapData"], none⟩,
    ⟨"RasterizerOrderedByteAddressBuffer", .classType "std::vector<uint32_t>" [], none⟩,
    ⟨"MinNOSPushConstantSize", .scalar "unsigned int", (some "0")⟩,
    ⟨"inlineProgramScopeOffsets", .classType "llvm::MapVector<llvm::GlobalVariable*, int>" [], none⟩,
    ⟨"shaderData", .record "ShaderData", none⟩,
    ⟨"URBInfo", .record "URBLayoutInfo", none⟩,
    ⟨"UseBindlessImage", .scalar "bool", (some "false")⟩,
    ⟨"enableRangeReduce", .scalar "bool", (some "false")⟩,
    ⟨"allowMatchMadOptimizationforVS", .scalar "bool", (some "false")⟩,
    ⟨"disableMemOptforNegativeOffsetLoads", .scalar "bool", (some "false")⟩,
    ⟨"statefulResourcesNotAliased", .scalar "bool", (some "false")⟩,
    ⟨"disableMixMode", .scalar "bool", (some "false")⟩,
    ⟨"privateMemoryPerWI", .scalar "unsigned int", (some "0")⟩,
    ⟨"PrivateMemoryPerFG", .classType "std::map<llvm::Function*, unsigned int>" [], none⟩,
    ⟨"capabilities", .record "SPIRVCapabilities", none⟩,
    ⟨"m_ShaderResourceViewMcsMask", .array "std::array<uint64_t, NUM_SHADER_RESOURCE_VIEW_SIZE>" NUM_SHADER_RESOURCE_VIEW_SIZE (.scalar "uint64_t"), (some "\x7b\x7d")⟩,
    ⟨"computedDepthMode", .scalar "unsigned int", (some "0")⟩,
    ⟨"isHDCFastClearShader", .scalar "bool", (some "false")⟩]⟩]

/-- Whether default construction gives an object of this type a determined
value; `fuel` bounds the nesting depth of records. -/
def MemberType.determined (decls : List RecordDecl) : Nat → MemberType → Bool
  | 0, _ => false
  | _ + 1, .scalar _ => false
  | _ + 1, .classType _ _ => true
  | fuel + 1, .record name =>
    match decls.find? (fun r => r.name == name) with
    | none => false
    | some r => r.members.all (fun m => m.init.isSome || MemberType.determined decls fuel m.type)
  | fuel + 1, .array _ _ element => MemberType.determined decls fuel element

/-- A member is initialised by default construction of its record when it has
a default member initialiser or its type default-constructs to a determined
value. -/
def MemberDecl.initialised (m : MemberDecl) : Bool :=
  m.init.isSome || MemberType.determined schema (schema.length + 1) m.type

/-- The members that default construction of their record leaves
uninitialised, as (record, member) pairs in declaration order. -/
def uninitialisedMembers : List (String × String) :=
  schema.flatMap (fun r =>
    (r.members.filter (fun m => !m.initialised)).map (fun m => (r.name, m.name)))

/-- Whether a default-constructed object of the named record has no
uninitialised member, nested records and arrays included. -/
def defaultConstructed (record : String) : Bool :=
  MemberType.determined schema (schema.length + 1) (.record record)

/-! ## The push-slot invariant -/

/-- Two simple-push slots refer to the same buffer and their byte ranges
[offset, offset + size) share a byte. -/
def SimplePushInfo.overlaps (a b : SimplePushInfo) : Bool :=
  decide (a.cbIdx = b.cbIdx) &&
    decide (max a.offset b.offset < min (a.offset + a.size) (b.offset + b.size))

/-- The push-slot invariant, as a check on a PushInfo value: "slot byte ranges
must not overlap; the set of pushed buffers is bounded by the configured
maximum" (§3 of the spec), read over the first simplePushBufferUsed slots,
with simplePushBufferUsed <= MaxNumberOfPushedBuffers <=
g_c_maxNumberOfBufferPushed. -/
def PushInfo.slotInvariant (p : PushInfo) : Bool :=
  decide (p.simplePushBufferUsed ≤ p.MaxNumberOfPushedBuffers) &&
  decide (p.MaxNumberOfPushedBuffers ≤ g_c_maxNumberOfBufferPushed) &&
  (List.range p.simplePushBufferUsed).all (fun i =>
    (List.range p.simplePushBufferUsed).all (fun j =>
      decide (i = j) ||
        match p.simplePushInfoArr.elems[i]?, p.simplePushInfoArr.elems[j]? with
        | some a, some b => !a.overlaps b
        | _, _ => true))

/-! ## Sample values -/

/-- Sample values of the included declarations, used by the worked examples. -/
def sampleIncludes : Includes :=
  { ROUND_TO_NEAREST_EVEN := 0, ROUND_TO_ZERO := 3, numCallableShaderTypes := 5 }

/-- A module that holds the two functions of `sampleMD`, in another order,
and carries an unrelated named root. -/
def sampleModule : Module :=
  { functions := [3, 7], namedMetadata := [(NAMED_METADATA_PIXEL_PHASE, .list [])] }

/-- A PushInfo whose two used slots push overlapping ranges of buffer 0. -/
def samplePushOverlap : PushInfo :=
  { MaxNumberOfPushedBuffers := 4
    simplePushBufferUsed := 2
    simplePushInfoArr :=
      ⟨[{ cbIdx := 0, offset := 0, size := 32 }, { cbIdx := 0, offset := 16, size := 32 },
        {}, {}], rfl⟩ }

/-- A PushInfo that counts more used slots than the configured maximum, and
more than there are slots. -/
def samplePushOverfull : PushInfo :=
  { MaxNumberOfPushedBuffers := 2, simplePushBufferUsed := 5 }

/-! ## Round trip of the node codec -/

@[simp] theorem decWith_encBool (d b : Bool) : decWith asBool? d (some (encBool b)) = b := rfl

@[simp] theorem decWith_encUInt (d v : Nat) : decWith asUInt? d (some (encUInt v)) = v := rfl

@[simp] theorem decWith_encPtr (d v : Nat) : decWith asUInt? d (some (encPtr v)) = v := rfl

@[simp] theorem decWith_encInt (d v : Int) : decWith asInt? d (some (encInt v)) = v := rfl

@[simp] theorem decWith_encFloat (d v : Nat) : decWith asFloat? d (some (encFloat v)) = v := rfl

theorem child_record_cons (name key : String) (v : Node) (rest : List (String × Node)) :
    Node.child name (some (.record ((key, v) :: rest))) =
      if name = key then some v else Node.child name (some (.record rest)) := by
  simp only [Node.child, List.lookup]
  by_cases h : name = key
  · simp [h]
  · have : (name == key) = false := by simpa using h
    simp [this, h]

@[simp] theorem asUInt_encUInt (v : Nat) : asUInt? (encUInt v) = some v := rfl

theorem decOptional_encOptional {α : Type} (as? : Node → Option α) (enc : α → Node)
    (h : ∀ a, as? (enc a) = some a) (o : Option α) :
    decOptional as? none (some (encOptional enc o)) = o := by
  cases o with
  | none => rfl
  | some a => simp [decOptional, encOptional, h]

@[simp] theorem decOptional_encUInt (o : Option Nat) :
    decOptional asUInt? none (some (encOptional encUInt o)) = o :=
  decOptional_encOptional _ _ asUInt_encUInt o

theorem decList_encList {α : Type} (dec : Option Node → α) (enc : α → Node)
    (h : ∀ a, dec (some (enc a)) = a) (l : List α) :
    decList dec (some (encList enc l)) = l := by
  simp [decList, encList, Function.comp_def, h]

theorem fixedArray_eq_of_elems {α : Type} {n : Nat} (a b : FixedArray α n)
    (h : a.elems = b.elems) : a = b := by
  cases a; cases b; cases h; rfl

theorem decArray_encArray {α : Type} {n : Nat} (dec : Option Node → α) (enc : α → Node)
    (h : ∀ a, dec (some (enc a)) = a) (a : FixedArray α n) :
    decArray n dec (some (encArray enc a)) = a := by
  apply fixedArray_eq_of_elems
  have hlen := a.size_eq
  simp [decArray, encArray, Function.comp_def, h, hlen, List.take_of_length_le]

theorem decPairs_encPairs {K V : Type} (asK? : Node → Option K) (encK : K → Node)
    (decV : Option Node → V) (encV : V → Node)
    (hK : ∀ k, asK? (encK k) = some k) (hV : ∀ v, decV (some (encV v)) = v)
    (l : List (K × V)) :
    decPairs asK? decV (some (encPairs encK encV l)) = l := by
  have hpair : ∀ e : K × V, decPair? asK? decV (encPair (encK e.1) (encV e.2)) = some e := by
    intro e
    simp [decPair?, encPair, child_record_cons, hK, hV]
  simp only [decPairs, encPairs, List.filterMap_map]
  induction l with
  | nil => rfl
  | cons e rest ih =>
    rw [List.filterMap_cons]
    simp only [Function.comp_apply, hpair e]
    rw [ih]

theorem stdMap_eq_of_entries {K V : Type} [KeyOrder K] (a b : StdMap K V)
    (h : a.entries = b.entries) : a = b := by
  cases a; cases b; cases h; rfl

theorem stdMap_insertEntry_last {K V : Type} [KeyOrder K] (k : K) (v : V) (l : List (K × V))
    (h : ∀ e ∈ l, KeyOrder.lt e.1 k = true) :
    StdMap.insertEntry k v l = l ++ [(k, v)] := by
  induction l with
  | nil => rfl
  | cons e rest ih =>
    have he : KeyOrder.lt e.1 k = true := h e (List.mem_cons_self _ _)
    have hne : KeyOrder.lt k e.1 = false := KeyOrder.asymm _ _ he
    simp [StdMap.insertEntry, he, hne, ih (fun x hx => h x (List.mem_cons_of_mem _ hx))]

theorem stdMap_foldl_insert {K V : Type} [KeyOrder K] (l : List (K × V)) :
    ∀ m : StdMap K V,
      (m.entries ++ l).Pairwise (fun a b => KeyOrder.lt a.1 b.1 = true) →
      (l.foldl (fun m e => m.insert e.1 e.2) m).entries = m.entries ++ l := by
  induction l with
  | nil => intro m _; simp
  | cons e rest ih =>
    intro m hs
    have hins : (m.insert e.1 e.2).entries = m.entries ++ [e] := by
      show StdMap.insertEntry e.1 e.2 m.entries = m.entries ++ [e]
      apply stdMap_insertEntry_last
      intro x hx
      exact (List.pairwise_append.mp hs).2.2 x hx e (List.mem_cons_self _ _)
    have hs2 : ((m.insert e.1 e.2).entries ++ rest).Pairwise
        (fun a b => KeyOrder.lt a.1 b.1 = true) := by
      rw [hins, List.append_assoc]; exact hs
    rw [List.foldl_cons, ih _ hs2, hins, List.append_assoc]
    rfl

theorem stdMap_ofList_entries {K V : Type} [KeyOrder K] (m : StdMap K V) :
    StdMap.ofList m.entries = m := by
  apply stdMap_eq_of_entries
  have h := stdMap_foldl_insert m.entries StdMap.empty (by simpa [StdMap.empty] using m.sorted)
  simpa [StdMap.ofList, StdMap.empty] using h

theorem decStdMap_encStdMap {K V : Type} [KeyOrder K] (asK? : Node → Option K) (encK : K → Node)
    (decV : Option Node → V) (encV : V → Node)
    (hK : ∀ k, asK? (encK k) = some k) (hV : ∀ v, decV (some (encV v)) = v)
    (m : StdMap K V) :
    decStdMap asK? decV (some (encStdMap encK encV m)) = m := by
  simp only [decStdMap, encStdMap, decPairs_encPairs asK? encK decV encV hK hV]
  exact stdMap_ofList_entries m

@[simp] theorem decArgDependencyInfoMD_enc (a : ArgDependencyInfoMD) : decArgDependencyInfoMD (some (encArgDependencyInfoMD a)) = a := by
  cases a
  simp [decArgDependencyInfoMD, encArgDependencyInfoMD, child_record_cons]

@[simp] theorem decArgAllocMD_enc (a : ArgAllocMD) : decArgAllocMD (some (encArgAllocMD a)) = a := by
  cases a
  simp [decArgAllocMD, encArgAllocMD, child_record_cons]

@[simp] theorem decInlineSamplersMD_enc (a : InlineSamplersMD) : decInlineSamplersMD (some (encInlineSamplersMD a)) = a := by
  cases a
  simp [decInlineSamplersMD, encInlineSamplersMD, child_record_cons]

@[simp] theorem decResourceAllocMD_enc (a : ResourceAllocMD) : decResourceAllocMD (some (encResourceAllocMD a)) = a := by
  cases a
  simp [decResourceAllocMD, encResourceAllocMD, child_record_cons,
    decList_encList decArgAllocMD encArgAllocMD decArgAllocMD_enc,
    decList_encList decInlineSamplersMD encInlineSamplersMD decInlineSamplersMD_enc]

@[simp] theorem decWorkGroupWalkOrderMD_enc (a : WorkGroupWalkOrderMD) : decWorkGroupWalkOrderMD (some (encWorkGroupWalkOrderMD a)) = a := by
  cases a
  simp [decWorkGroupWalkOrderMD, encWorkGroupWalkOrderMD, child_record_cons]

@[simp] theorem decRayTracingSWTypes_enc (a : RayTracingSWTypes) : decRayTracingSWTypes (some (encRayTracingSWTypes a)) = a := by
  cases a
  simp [decRayTracingSWTypes, encRayTracingSWTypes, child_record_cons,
    decList_encList (decWith asUInt? 0) encPtr (decWith_encPtr 0)]

@[simp] theorem decRayTraceModuleInfo_enc (a : RayTraceModuleInfo) : decRayTraceModuleInfo (some (encRayTraceModuleInfo a)) = a := by
  cases a
  simp [decRayTraceModuleInfo, encRayTraceModuleInfo, child_record_cons]

@[simp] theorem decConstantAddress_enc (a : ConstantAddress) : decConstantAddress (some (encConstantAddress a)) = a := by
  cases a
  simp [decConstantAddress, encConstantAddress, child_record_cons]

theorem asRecord_encConstantAddress (a : ConstantAddress) :
    asRecord? decConstantAddress (encConstantAddress a) = some a := by
  have h := decConstantAddress_enc a
  simp only [encConstantAddress] at h
  simp only [asRecord?, encConstantAddress, h]

@[simp] theorem decCompOptions_enc {inc : Includes} (a : CompOptions inc) : decCompOptions inc (some (encCompOptions a)) = a := by
  cases a
  simp [decCompOptions, encCompOptions, child_record_cons]

@[simp] theorem decPixelShaderInfo_enc (a : PixelShaderInfo) : decPixelShaderInfo (some (encPixelShaderInfo a)) = a := by
  cases a
  simp [decPixelShaderInfo, encPixelShaderInfo, child_record_cons,
    decList_encList (decWith asInt? 0) encInt (decWith_encInt 0)]

@[simp] theorem decMeshShaderInfo_enc (a : MeshShaderInfo) : decMeshShaderInfo (some (encMeshShaderInfo a)) = a := by
  cases a
  simp [decMeshShaderInfo, encMeshShaderInfo, child_record_cons]

@[simp] theorem decTaskShaderInfo_enc (a : TaskShaderInfo) : decTaskShaderInfo (some (encTaskShaderInfo a)) = a := by
  cases a
  simp [decTaskShaderInfo, encTaskShaderInfo, child_record_cons]

@[simp] theorem decSInputDesc_enc (a : SInputDesc) : decSInputDesc (some (encSInputDesc a)) = a := by
  cases a
  simp [decSInputDesc, encSInputDesc, child_record_cons]

@[simp] theorem decSimplePushInfo_enc (a : SimplePushInfo) : decSimplePushInfo (some (encSimplePushInfo a)) = a := by
  cases a
  simp [decSimplePushInfo, encSimplePushInfo, child_record_cons,
    decStdMap_encStdMap asUInt? encUInt (decWith asInt? 0) encInt asUInt_encUInt (decWith_encInt 0)]

@[simp] theorem decStatelessPushInfo_enc (a : StatelessPushInfo) : decStatelessPushInfo (some (encStatelessPushInfo a)) = a := by
  cases a
  simp [decStatelessPushInfo, encStatelessPushInfo, child_record_cons]

@[simp] theorem decDynamicBufferInfo_enc (a : DynamicBufferInfo) : decDynamicBufferInfo (some (encDynamicBufferInfo a)) = a := by
  cases a
  simp [decDynamicBufferInfo, encDynamicBufferInfo, child_record_cons]

@[simp] theorem decPushInfo_enc (a : PushInfo) : decPushInfo (some (encPushInfo a)) = a := by
  cases a
  simp [decPushInfo, encPushInfo, child_record_cons,
    decList_encList decStatelessPushInfo encStatelessPushInfo decStatelessPushInfo_enc,
    decList_encList (decWith asUInt? 0) encUInt (decWith_encUInt 0),
    decStdMap_encStdMap (asRecord? decConstantAddress) encConstantAddress (decWith asInt? 0) encInt asRecord_encConstantAddress (decWith_encInt 0),
    decStdMap_encStdMap asUInt? encUInt decSInputDesc encSInputDesc asUInt_encUInt decSInputDesc_enc,
    decStdMap_encStdMap asUInt? encUInt (decWith asInt? 0) encInt asUInt_encUInt (decWith_encInt 0),
    decArray_encArray decSimplePushInfo encSimplePushInfo decSimplePushInfo_enc,
    decList_encList decArgDependencyInfoMD encArgDependencyInfoMD decArgDependencyInfoMD_enc]

@[simp] theorem decImmConstantInfo_enc (a : ImmConstantInfo) : decImmConstantInfo (some (encImmConstantInfo a)) = a := by
  cases a
  simp [decImmConstantInfo, encImmConstantInfo, child_record_cons,
    decList_encList (decWith asInt? 0) encInt (decWith_encInt 0)]

@[simp] theorem decShaderData_enc (a : ShaderData) : decShaderData (some (encShaderData a)) = a := by
  cases a
  simp [decShaderData, encShaderData, child_record_cons]

@[simp] theorem decURBLayoutInfo_enc (a : URBLayoutInfo) : decURBLayoutInfo (some (encURBLayoutInfo a)) = a := by
  cases a
  simp [decURBLayoutInfo, encURBLayoutInfo, child_record_cons]

@[simp] theorem decSPIRVCapabilities_enc (a : SPIRVCapabilities) : decSPIRVCapabilities (some (encSPIRVCapabilities a)) = a := by
  cases a
  simp [decSPIRVCapabilities, encSPIRVCapabilities, child_record_cons]

theorem clearRoot_append_self (name : String) (n : Node) (roots : List (String × Node)) :
    clearRoot name (clearRoot name roots ++ [(name, n)]) = clearRoot name roots := by
  simp [clearRoot, List.filter_append, List.filter_filter]

/-- C2 (default on absence). A module that carries no metadata root
deserializes to the default-constructed ModuleMetaData, whose FuncMD is
empty, whatever functions the module holds. -/
theorem deserialize_absent_default (inc : Includes) (irModule : Module)
    (hnone : irModule.namedMetadata.lookup moduleMetadataRoot = none) :
    deserialize inc irModule = ({} : ModuleMetaData inc) ∧
    (deserialize inc irModule).FuncMD.entries = [] := by
  have h : deserialize inc irModule = ({} : ModuleMetaData inc) := by
    simp only [deserialize, hnone]
    rfl
  exact ⟨h, by rw [h]; rfl⟩

theorem deserialize_absent_default_witness :
    deserialize sampleIncludes sampleModule = ({} : ModuleMetaData sampleIncludes) ∧
    (deserialize sampleIncludes sampleModule).FuncMD.entries = [] :=
  deserialize_absent_default sampleIncludes sampleModule rfl

/-- C3 (idempotent serialize). Running serialize twice in a row leaves the
module exactly as running it once does, and the module then carries exactly
one root of the reserved name, the tree of M. -/
theorem serialize_idempotent {inc : Includes} (M : ModuleMetaData inc) (irModule : Module) :
    serialize M (serialize M irModule) = serialize M irModule ∧
    (serialize M (serialize M irModule)).namedMetadata.filter
        (fun r => decide (r.1 = moduleMetadataRoot)) =
      [(moduleMetadataRoot, encModuleMetaData M)] := by
  have h : serialize M (serialize M irModule) = serialize M irModule := by
    simp only [serialize, clearRoot_append_self]
  refine ⟨h, ?_⟩
  rw [h]
  simp [serialize, clearRoot, List.filter_append, List.filter_filter]

/-- C5 (push-slot bound). Every PushInfo holds exactly
g_c_maxNumberOfBufferPushed = 4 simple-push slots, at the indices 0 to 3, and
has no slot at index 4, whatever simplePushBufferUsed and
MaxNumberOfPushedBuffers hold. -/
theorem pushInfo_four_slots (p : PushInfo) :
    p.simplePushInfoArr.elems.length = g_c_maxNumberOfBufferPushed ∧
    g_c_maxNumberOfBufferPushed = 4 ∧
    (∀ i, i < 4 → (p.simplePushInfoArr.elems.get? i).isSome = true) ∧
    p.simplePushInfoArr.elems.get? 4 = none ∧
    (∀ used maxPushed,
      ({ p with simplePushBufferUsed := used,
                MaxNumberOfPushedBuffers := maxPushed }).simplePushInfoArr.elems.length = 4) := by
  have hlen : p.simplePushInfoArr.elems.length = 4 := p.simplePushInfoArr.size_eq
  refine ⟨p.simplePushInfoArr.size_eq, rfl, ?_, ?_, fun _ _ => hlen⟩
  · intro i hi
    rw [List.get?_eq_getElem?, Option.isSome_iff_exists]
    exact ⟨_, List.getElem?_eq_getElem (by omega)⟩
  · rw [List.get?_eq_getElem?]
    exact List.getElem?_eq_none (by omega)

/-- C6, as stated, fails: two ConstantAddress values that differ in `size`
only are distinct, yet neither is below the other, so `operator <` is not a
total order on ConstantAddress values. -/
theorem constantAddress_lt_not_total :
    ({ bufId := 1, eltId := 5, size := 4 } : ConstantAddress) ≠
        ({ bufId := 1, eltId := 5, size := 8 } : ConstantAddress) ∧
    ConstantAddress.lt { bufId := 1, eltId := 5, size := 4 }
        { bufId := 1, eltId := 5, size := 8 } = false ∧
    ConstantAddress.lt { bufId := 1, eltId := 5, size := 8 }
        { bufId := 1, eltId := 5, size := 4 } = false := by
  decide

/-- C6, amended (constant ordering). `operator <` on ConstantAddress compares
bufId first and eltId second and ignores size; it is irreflexive and
transitive, and two addresses are unordered exactly when they agree in bufId
and eltId. Entering the keys (2,0), (1,5), (1,0) in that order into
PushInfo.constants and enumerating gives (1,0), (1,5), (2,0). -/
theorem constantAddress_lt_order :
    (∀ a b : ConstantAddress, ConstantAddress.lt a b = true ↔
      (a.bufId < b.bufId ∨ (a.bufId = b.bufId ∧ a.eltId < b.eltId))) ∧
    (∀ a : ConstantAddress, ConstantAddress.lt a a = false) ∧
    (∀ a b c : ConstantAddress, ConstantAddress.lt a b = true →
      ConstantAddress.lt b c = true → ConstantAddress.lt a c = true) ∧
    (∀ a b : ConstantAddress,
      (ConstantAddress.lt a b = false ∧ ConstantAddress.lt b a = false) ↔
        (a.bufId = b.bufId ∧ a.eltId = b.eltId)) ∧
    (∀ (s1 s2 s3 : Nat) (v1 v2 v3 : Int),
      (((({} : PushInfo).constants.insert { bufId := 2, eltId := 0, size := s1 } v1).insert
            { bufId := 1, eltId := 5, size := s2 } v2).insert
            { bufId := 1, eltId := 0, size := s3 } v3).entries.map
          (fun e => (e.1.bufId, e.1.eltId)) = [(1, 0), (1, 5), (2, 0)]) := by
  refine ⟨?_, ?_, ?_, ?_, ?_⟩
  · intro a b
    simp [ConstantAddress.lt]
  · intro a
    simp [ConstantAddress.lt]
  · intro a b c h1 h2
    simp only [ConstantAddress.lt, Bool.or_eq_true, Bool.and_eq_true, decide_eq_true_eq] at *
    omega
  · intro a b
    simp only [ConstantAddress.lt, Bool.or_eq_false_iff, Bool.and_eq_false_iff,
      decide_eq_false_iff_not]
    omega
  · intro s1 s2 s3 v1 v2 v3
    simp [StdMap.insert, StdMap.insertEntry, StdMap.empty, KeyOrder.lt, ConstantAddress.lt]

/-- C7, as stated, fails: the members of LocalOffsetMD, a record nested in
FunctionMetaData, have no default member initialiser and are of scalar type,
so default construction leaves them uninitialised. -/
theorem localOffsetMD_members_uninitialised :
    (schema.find? (fun r => r.name == "LocalOffsetMD")).map
        (fun r => r.members.map (fun m => (m.name, m.init, m.initialised))) =
      some [("m_Offset", none, false), ("m_Var", none, false)] := by
  decide

/-- C7, amended. The members of the schema records that default construction
leaves uninitialised are exactly the scalar members of LocalOffsetMD,
InlineProgramScopeBuffer, PointerProgramBinaryInfo, PointerAddressRelocInfo
and SrvMapData listed here; every other member of every schema record has a
default member initialiser or a type that default-constructs. Those five
records occur as elements of vectors only, so a default-constructed
ModuleMetaData and a default-constructed FunctionMetaData have no
uninitialised member. -/
theorem schema_uninitialised_members :
    uninitialisedMembers =
      [("LocalOffsetMD", "m_Offset"), ("LocalOffsetMD", "m_Var"),
       ("InlineProgramScopeBuffer", "alignment"), ("InlineProgramScopeBuffer", "allocSize"),
       ("PointerProgramBinaryInfo", "PointerBufferIndex"),
       ("PointerProgramBinaryInfo", "PointerOffset"),
       ("PointerProgramBinaryInfo", "PointeeAddressSpace"),
       ("PointerProgramBinaryInfo", "PointeeBufferIndex"),
       ("PointerAddressRelocInfo", "BufferOffset"), ("PointerAddressRelocInfo", "PointerSize"),
       ("SrvMapData", "resourceRangeID"), ("SrvMapData", "indexIntoRange"),
       ("SrvMapData", "runtimeValue"), ("SrvMapData", "ptrAddressSpace")] ∧
    defaultConstructed "ModuleMetaData" = true ∧
    defaultConstructed "FunctionMetaData" = true := by
  decide

/-- C8 (sentinel defaults). In a default-constructed ModuleMetaData,
csInfo.neededThreadIdLayout is absent and the three inline-constant-buffer
members of pushInfo hold 0xFFFFFFFF, the largest 32-bit unsigned value; in a
default-constructed FunctionMetaData, rtInfo.callableShaderType is
NumberOfCallableShaderTypes, the last enumerator of its enumeration. -/
theorem sentinel_defaults (inc : Includes) :
    ({} : ModuleMetaData inc).csInfo.neededThreadIdLayout = none ∧
    ({} : ModuleMetaData inc).pushInfo.inlineConstantBufferSlot =
      INVALID_CONSTANT_BUFFER_INVALID_ADDR ∧
    ({} : ModuleMetaData inc).pushInfo.inlineConstantBufferOffset =
      INVALID_CONSTANT_BUFFER_INVALID_ADDR ∧
    ({} : ModuleMetaData inc).pushInfo.inlineConstantBufferGRFOffset =
      INVALID_CONSTANT_BUFFER_INVALID_ADDR ∧
    INVALID_CONSTANT_BUFFER_INVALID_ADDR = 2 ^ 32 - 1 ∧
    ({} : FunctionMetaData inc).rtInfo.callableShaderType =
      CallableShaderTypeMD.NumberOfCallableShaderTypes ∧
    (∀ t : CallableShaderTypeMD inc,
      t.toInt ≤ (CallableShaderTypeMD.NumberOfCallableShaderTypes :
        CallableShaderTypeMD inc).toInt) := by
  refine ⟨rfl, rfl, rfl, rfl, by decide, rfl, ?_⟩
  intro t
  cases t with
  | shaderType ordinal =>
    simp only [CallableShaderTypeMD.toInt, Int.ofNat_eq_coe, Nat.cast_le]
    exact Nat.le_of_lt ordinal.isLt
  | NumberOfCallableShaderTypes => exact Int.le_refl _

/-- C9. For every FunctionMetaData f, isContinuation f is the flag
f.rtInfo.isContinuation, whatever functionType, callableShaderType,
ParentName and SlotNum hold; it is false for a default-constructed
FunctionMetaData. -/
theorem isContinuation_is_flag {inc : Includes} (f : FunctionMetaData inc) :
    isContinuation f = f.rtInfo.isContinuation ∧
    (∀ (functionType : FunctionTypeMD) (callableShaderType : CallableShaderTypeMD inc)
        (parentName : String) (slotNum : Option Nat),
      isContinuation
          { f with
            functionType := functionType
            rtInfo := { f.rtInfo with
              callableShaderType := callableShaderType
              ParentName := parentName
              SlotNum := slotNum } } = f.rtInfo.isContinuation) ∧
    isContinuation ({} : FunctionMetaData inc) = false :=
  ⟨rfl, fun _ _ _ _ => rfl, rfl⟩

/-- C14, as stated, fails: the enumeration FunctionTypeMD has a fourth
enumerator, NumberOfFunctionType, of integer value 3, so a FunctionMetaData
can hold a tag that is none of KernelFunction, CallableShader and
UserFunction. -/
theorem functionType_fourth_value :
    (({ functionType := .NumberOfFunctionType } : FunctionMetaData sampleIncludes).functionType ≠
      .KernelFunction) ∧
    (({ functionType := .NumberOfFunctionType } : FunctionMetaData sampleIncludes).functionType ≠
      .CallableShader) ∧
    (({ functionType := .NumberOfFunctionType } : FunctionMetaData sampleIncludes).functionType ≠
      .UserFunction) ∧
    (({ functionType := .NumberOfFunctionType } :
      FunctionMetaData sampleIncludes).functionType.toInt = 3) := by
  refine ⟨by decide, by decide, by decide, rfl⟩

/-- C14, amended. For every FunctionMetaData the functionType tag is one of
the four enumerators of FunctionTypeMD: KernelFunction, CallableShader,
UserFunction and the count enumerator NumberOfFunctionType, of integer
values 0 to 3; a default-constructed FunctionMetaData has functionType =
KernelFunction. -/
theorem functionType_values {inc : Includes} (f : FunctionMetaData inc) :
    (f.functionType = .KernelFunction ∨ f.functionType = .CallableShader ∨
      f.functionType = .UserFunction ∨ f.functionType = .NumberOfFunctionType) ∧
    (0 ≤ f.functionType.toInt ∧ f.functionType.toInt ≤ 3) ∧
    FunctionTypeMD.NumberOfFunctionType.toInt = 3 ∧
    ({} : FunctionMetaData inc).functionType = .KernelFunction := by
  refine ⟨?_, ?_, rfl, rfl⟩
  · cases f.functionType <;> simp
  · cases f.functionType <;> decide

/-- C15, as stated, fails: PushInfo stores the slot count, the configured
maximum and the slots' ranges as independent members. One value has two used
slots with overlapping ranges of the same buffer, another counts 5 used slots
against a maximum of 2; both break the invariant. -/
theorem pushInfo_invariant_not_enforced :
    samplePushOverlap.slotInvariant = false ∧
    samplePushOverlap.simplePushBufferUsed = 2 ∧
    (samplePushOverlap.simplePushInfoArr.elems.map (fun s => (s.cbIdx, s.offset, s.size))).take 2 =
      [(0, 0, 32), (0, 16, 32)] ∧
    samplePushOverfull.slotInvariant = false ∧
    samplePushOverfull.simplePushBufferUsed = 5 ∧
    samplePushOverfull.MaxNumberOfPushedBuffers = 2 := by
  decide

theorem all_range_iff (n : Nat) (p : Nat → Bool) :
    (List.range n).all p = true ↔ ∀ i, i < n → p i = true := by
  simp [List.all_eq_true, List.mem_range]

/-- C15, amended (push-slot invariant). The default-constructed PushInfo
satisfies the invariant, with simplePushBufferUsed = MaxNumberOfPushedBuffers
= 0. For a PushInfo in general the invariant is a condition, not a property
of the type: it holds exactly when simplePushBufferUsed <=
MaxNumberOfPushedBuffers <= 4 and no two distinct slots among the first
simplePushBufferUsed refer to the same buffer with ranges that share a byte.
What the type gives every PushInfo is the number of slots, 4. -/
theorem pushInfo_slotInvariant_spec :
    ({} : PushInfo).slotInvariant = true ∧
    ({} : PushInfo).simplePushBufferUsed = 0 ∧
    ({} : PushInfo).MaxNumberOfPushedBuffers = 0 ∧
    (∀ p : PushInfo, p.slotInvariant = true ↔
      (p.simplePushBufferUsed ≤ p.MaxNumberOfPushedBuffers ∧
       p.MaxNumberOfPushedBuffers ≤ 4 ∧
       ∀ (i j : Nat) (a b : SimplePushInfo),
         i < p.simplePushBufferUsed → j < p.simplePushBufferUsed → i ≠ j →
         p.simplePushInfoArr.elems[i]? = some a → p.simplePushInfoArr.elems[j]? = some b →
         a.cbIdx = b.cbIdx →
         ¬ (max a.offset b.offset < min (a.offset + a.size) (b.offset + b.size)))) ∧
    (∀ p : PushInfo, p.simplePushInfoArr.elems.length = 4) := by
  refine ⟨by decide, rfl, rfl, ?_, fun p => p.simplePushInfoArr.size_eq⟩
  intro p
  simp only [PushInfo.slotInvariant, Bool.and_eq_true, decide_eq_true_eq, all_range_iff,
    Bool.or_eq_true, g_c_maxNumberOfBufferPushed]
  constructor
  · rintro ⟨⟨h1, h2⟩, h3⟩
    refine ⟨h1, h2, ?_⟩
    intro i j a b hi hj hij ha hb hcb hov
    have h := h3 i hi j hj
    rw [ha, hb] at h
    rcases h with h | h
    · exact hij h
    · simp [SimplePushInfo.overlaps, hcb, hov] at h
  · rintro ⟨h1, h2, h3⟩
    refine ⟨⟨h1, h2⟩, ?_⟩
    intro i hi j hj
    by_cases hij : i = j
    · exact Or.inl hij
    · right
      cases ha : p.simplePushInfoArr.elems[i]? with
      | none => rfl
      | some a =>
        cases hb : p.simplePushInfoArr.elems[j]? with
        | none => rfl
        | some b =>
          by_cases hcb : a.cbIdx = b.cbIdx
          · have := h3 i j a b hi hj hij ha hb hcb
            simp [SimplePushInfo.overlaps, hcb, this]
          · simp [SimplePushInfo.overlaps, hcb]

/-- C16. NUM_SHADER_RESOURCE_VIEW_SIZE is the integer quotient
(INPUT_RESOURCE_SLOT_COUNT + 1) / 64 with INPUT_RESOURCE_SLOT_COUNT = 128,
which is 2 (the sum stays within 32 bits); the array
m_ShaderResourceViewMcsMask of 64-bit words so holds 64 * 2 = 128 >=
INPUT_RESOURCE_SLOT_COUNT bits, and each of its words is 0 in a
default-constructed ModuleMetaData. -/
theorem shaderResourceViewMcsMask_size (inc : Includes) :
    INPUT_RESOURCE_SLOT_COUNT = 128 ∧
    NUM_SHADER_RESOURCE_VIEW_SIZE = (INPUT_RESOURCE_SLOT_COUNT + 1) / 64 ∧
    INPUT_RESOURCE_SLOT_COUNT + 1 < 2 ^ 32 ∧
    NUM_SHADER_RESOURCE_VIEW_SIZE = 2 ∧
    64 * NUM_SHADER_RESOURCE_VIEW_SIZE = 128 ∧
    INPUT_RESOURCE_SLOT_COUNT ≤ 64 * NUM_SHADER_RESOURCE_VIEW_SIZE ∧
    (∀ M : ModuleMetaData inc,
      M.m_ShaderResourceViewMcsMask.elems.length = NUM_SHADER_RESOURCE_VIEW_SIZE) ∧
    ({} : ModuleMetaData inc).m_ShaderResourceViewMcsMask.elems = [0, 0] ∧
    (∀ word ∈ ({} : ModuleMetaData inc).m_ShaderResourceViewMcsMask.elems, word = 0) := by
  refine ⟨rfl, rfl, by decide, by decide, by decide, by decide,
    fun M => M.m_ShaderResourceViewMcsMask.size_eq, rfl, ?_⟩
  intro word hword
  have h : ({} : ModuleMetaData inc).m_ShaderResourceViewMcsMask.elems = [0, 0] := rfl
  rw [h] at hword
  simpa using hword

end IGC
